import Mathlib

/-!
# Verification of the MDCalc Calculator Interaction Engine

A shallow embedding, in Lean 4, of the parts of
`mcp-servers/mdcalc-automation-mcp/src/mdcalc_client.py` (and of the
auth/transport layer in `auth.py` / `server.py`) that the testable
properties of the specification talk about, together with proofs or
refutations of those properties.

Modelling conventions:
* The live browser page is represented by explicit state records; the DOM
  facts that the in-page JavaScript of the client reads (element texts,
  geometry, computed styles, heights) are fields of those records.
* Playwright calls that can raise (clicks, fills, screenshots) are
  functions into `Except`; Python `try/except` blocks become explicit
  catches.  In-page `page.evaluate` of pure JavaScript is modelled as a
  pure total function.
* Machine arithmetic performed by the source in floating point
  (`int((viewport_height / target_height) * 90)`) is modelled with exact
  natural-number arithmetic: for positive integers the Python expression
  computes the floor of `90 * V / H`, which is `V * 90 / H` in `Nat`.
* Clicking a discrete MDCalc option control toggles its selected state.
  This environment behaviour is taken from the idempotence discussion in
  the specification ("calling apply twice with the same assignment must
  not toggle the control off"), since the third-party page is not part of
  the repository.
-/

namespace MDCalc

/-! ## String helpers

Executable stand-ins for the JavaScript / CSS string predicates the client
uses: `includes` (case-sensitive substring), `:has-text` (case-insensitive
substring), `:text-is` (exact text). -/

/-- Does `needle` occur as a contiguous sublist of `hay`? -/
def listInfix (needle hay : List Char) : Bool :=
  match hay with
  | [] => needle.isEmpty
  | _ :: t => needle.isPrefixOf hay || listInfix needle t

/-- Case-sensitive substring test (JavaScript `String.prototype.includes`). -/
def strContains (hay needle : String) : Bool :=
  listInfix needle.toList hay.toList

/-- Lower-case a string character by character. -/
def lowerStr (s : String) : String :=
  String.mk (s.toList.map Char.toLower)

/-- Case-insensitive substring test (Playwright `:has-text`). -/
def strContainsCI (hay needle : String) : Bool :=
  strContains (lowerStr hay) (lowerStr needle)

/-! ## Page Snapshot Builder (`get_calculator_details`)

State of one freshly navigated calculator page as seen by the snapshot
path (`mdcalc_client.py` lines 324-587).  `shotFails` records whether the
environment makes the `page.screenshot` call raise; `render` is the JPEG
the browser would produce when it succeeds. -/

/-- Raw screenshot bytes. -/
abbrev Bytes := List Nat

structure SnapPage where
  /-- the scrollHeight of the calculator container (measurement evaluate, line 491). -/
  calcHeight : Nat
  /-- bottom edge of the last interactive control (line 500). -/
  lastFieldBottom : Nat
  /-- the window.innerHeight measurement (line 506). -/
  viewportHeight : Nat
  /-- labels of the field groups that the structural-discovery evaluate
      (lines 364-482) returns for this page; best effort, possibly empty.
      Only its independence from the capture is at stake here, so the
      discovery result is carried as page data. -/
  discoveredFields : List String
  /-- text of the h1 heading of the page. -/
  title : String
  /-- environment: the `page.screenshot` call raises on this page. -/
  shotFails : Bool
  /-- bytes produced when the screenshot succeeds. -/
  render : Bytes
  /-- current `document.body.style.zoom`, in percent. -/
  zoom : Nat
  /-- whether the result-overlay hiding pass has set `display:none`
      (elements carrying `data-original-display`). -/
  overlaysHidden : Bool
deriving Repr, DecidableEq

/-- What `get_calculator_details` returns (sans url). -/
structure SnapDetails where
  title : String
  fields : List String
  /-- the screenshot, as returned under the key screenshot_base64; the
      base64 transcoding is modelled as the identity on bytes.  Absent when
      the screenshot failed or was empty (source line 576 guards on
      truthiness of the bytes). -/
  screenshot_base64 : Option Bytes
deriving Repr, DecidableEq

/-- Target height for the zoom computation (lines 517-518): the bottom of
the last field when one was measured, otherwise the container height. -/
def target_height (p : SnapPage) : Nat :=
  if p.lastFieldBottom > 0 then p.lastFieldBottom else p.calcHeight

/-- The zoom percentage computed at lines 520-523:
`int((viewport_height / target_height) * 90)` clamped to `[50, 100]`,
only when the target overflows the viewport; otherwise `optimal_zoom`
keeps its initial value 100. -/
def snapshot_zoom (targetH viewportH : Nat) : Nat :=
  if targetH > viewportH then max 50 (min (viewportH * 90 / targetH) 100) else 100

/-- The body zoom in effect when the snapshot screenshot is taken: the
computed zoom is applied only in the overflow branch (line 526); otherwise
the page keeps its zoom. -/
def zoom_at_capture (p : SnapPage) : Nat :=
  if target_height p > p.viewportHeight then
    snapshot_zoom (target_height p) p.viewportHeight
  else p.zoom

/-- The capture block of `get_calculator_details` (the `try` at lines
486-581): measure, zoom, hide overlays, screenshot, restore.  Returns the
page as left behind plus the optional capture.  When the screenshot raises
(`shotFails`), control jumps to the `except` at line 580: no restore runs
and no capture is produced. -/
def snapshot_capture (p : SnapPage) : SnapPage × Option Bytes :=
  let pz := { p with zoom := zoom_at_capture p }
  let ph := { pz with overlaysHidden := true }
  if ph.shotFails then
    (ph, none)
  else
    let bytes := ph.render
    let pr := { ph with overlaysHidden := false, zoom := 100 }
    (pr, if bytes = [] then none else some bytes)

/-- `get_calculator_details` after `ensure_browser_connected`: navigation
may time out (fatal, propagated to the caller); on success the structural
discovery runs, then the capture block, and the details are returned. -/
def get_calculator_details (nav : Except String SnapPage) :
    Except String (SnapDetails × SnapPage) :=
  match nav with
  | .error e => .error e
  | .ok p =>
      let (p', shot) := snapshot_capture p
      .ok ({ title := p.title, fields := p.discoveredFields,
             screenshot_base64 := shot }, p')

/-! ## Field Resolution Engine: page model

The DOM facts that the resolution strategies of `execute_calculator`
(lines 636-1112) read are carried as explicit records.  Inputs are listed
in DOM order; label-bearing elements refer to inputs by index. -/

/-- One `input` element, with the attributes and geometry the strategies
consult. -/
structure InputEl where
  /-- the id attribute. -/
  id : String
  /-- the name attribute. -/
  name : String
  /-- the type attribute; empty string when absent. -/
  typ : String
  /-- the inputmode attribute. -/
  inputmode : String
  /-- the placeholder attribute. -/
  placeholder : String
  /-- the aria-label attribute. -/
  ariaLabel : String
  /-- current value. -/
  value : String
  /-- nonzero bounding rectangle. -/
  visible : Bool
  disabled : Bool
  readOnly : Bool
  /-- bounding-rect top. -/
  top : Int
  /-- bounding-rect left. -/
  left : Int
  /-- textContent of the closest div container whose class matches
      field/input/form-group/input-group (strategy 2 context check,
      lines 890-895), when such a container exists. -/
  ctxText : Option String
  /-- textContent of the previous element sibling (lines 896-900). -/
  prevSibText : Option String
deriving Repr, DecidableEq

/-- One step of the nextElementSibling walk below a label (lines 746-797):
the sibling may itself be an input (index into the page inputs), and
running querySelector for a text/number/untyped input inside it may find
one. -/
structure SiblingEl where
  directInput : Option Nat
  innerInput : Option Nat
deriving Repr, DecidableEq

/-- One element considered by the label query of numeric strategy 1
(lines 681-696). -/
structure LabelEl where
  /-- the tagName, upper case. -/
  tag : String
  /-- concatenated own (direct) text nodes, trimmed (lines 684-687). -/
  directText : String
  /-- trimmed textContent. -/
  fullText : String
  /-- the for attribute, resolved by getElementById to an input index;
      none when there is no for attribute or it resolves to nothing. -/
  forInput : Option Nat
  top : Int
  left : Int
  /-- the chain of following element siblings, in document order. -/
  siblings : List SiblingEl
deriving Repr, DecidableEq

/-- Tag of a candidate discrete control. -/
inductive CTag where
  | button
  | div
  | other
deriving Repr, DecidableEq

/-- One candidate clickable control of the discrete path.  The computed
teal background (selected state) is kept separately, in a list of Booleans
parallel to the control list, because clicking mutates only that state;
the teal background of the immediate parent is attributed to the control
itself. -/
structure DiscreteControl where
  tag : CTag
  /-- trimmed textContent. -/
  text : String
  /-- Playwright actionability: clicks through locators and element
      handles raise when this is false; the JavaScript click of
      strategy 4 ignores it. -/
  actionable : Bool
  /-- concatenated textContent of the ancestors within five levels
      (the bounded upward walks at lines 1002-1015 and 1062-1073). -/
  ancestorText : String
  /-- the role attribute. -/
  role : String
  /-- the class attribute. -/
  className : String
  /-- presence of an onclick attribute. -/
  onclickAttr : Bool
deriving Repr, DecidableEq

/-! ## Numeric value detection (lines 641-645)

The assignment is numeric-biased when `float(str(value))` succeeds:
optional surrounding whitespace, an optional sign, and either a decimal
literal with optional exponent or one of the words inf / infinity / nan. -/

/-- Trim ASCII whitespace from both ends of a character list. -/
def trimWs (cs : List Char) : List Char :=
  ((cs.dropWhile Char.isWhitespace).reverse.dropWhile Char.isWhitespace).reverse

/-- Optional exponent part: e or E, optional sign, one or more digits. -/
def expOk (cs : List Char) : Bool :=
  match cs with
  | [] => true
  | c :: t =>
      (c == 'e' || c == 'E') &&
      (let t' := match t with
                 | s :: t' => if s == '+' || s == '-' then t' else t
                 | [] => t
       !t'.isEmpty && t'.all Char.isDigit &&
       -- the sign must be followed by the digits just checked
       (match t with
        | s :: _ => if s == '+' || s == '-' then t.length ≥ 2 else true
        | [] => false))

/-- Mantissa with optional fractional part, followed by an optional
exponent: digits [. digits*] | . digits+. -/
def mantissaOk (cs : List Char) : Bool :=
  let ds := cs.takeWhile Char.isDigit
  let rest := cs.drop ds.length
  if ds.isEmpty then
    match rest with
    | '.' :: r =>
        let fs := r.takeWhile Char.isDigit
        !fs.isEmpty && expOk (r.drop fs.length)
    | _ => false
  else
    match rest with
    | '.' :: r =>
        let fs := r.takeWhile Char.isDigit
        expOk (r.drop fs.length)
    | _ => expOk rest

/-- Case-insensitive comparison of a character list against a word. -/
def ciIs (cs : List Char) (w : String) : Bool :=
  cs.map Char.toLower == w.toList

/-- Does `float(s)` succeed in Python? -/
def is_numeric_value (s : String) : Bool :=
  let cs := trimWs s.toList
  let body := match cs with
              | c :: t => if c == '+' || c == '-' then t else cs
              | [] => cs
  ciIs body "inf" || ciIs body "infinity" || ciIs body "nan" || mantissaOk body

/-! ## Numeric path, strategy 1 (the evaluate at lines 658-849)

Find the input associated with the label whose text matches the field
name: first an explicit for= linkage, then the following-sibling walk,
then the geometrically closest unfilled input within a bounded distance. -/

/-- Write `v` into input `i` (the native value setter plus input/change
events, lines 728-737 etc.).  Out-of-range indices leave the list
unchanged. -/
def setInput (inputs : List InputEl) (i : Nat) (v : String) : List InputEl :=
  match inputs[i]? with
  | none => inputs
  | some inp => inputs.set i { inp with value := v }

/-- The filter of the allInputs collection (lines 662-664): text, number
or untyped input with a nonzero rectangle, enabled and not read-only. -/
def ns1InputOk (i : InputEl) : Bool :=
  (i.typ == "text" || i.typ == "number" || i.typ == "") &&
  i.visible && !i.disabled && !i.readOnly

/-- The label filter (lines 689-695): direct text equal to or starting
with the field name, or full text equal to it; overall text not much
longer than the field name; scripts and styles excluded. -/
def labelCandidate (fn : String) (l : LabelEl) : Bool :=
  (l.directText == fn || fn.toList.isPrefixOf l.directText.toList ||
    l.fullText == fn) &&
  l.fullText.length < fn.length + 100 &&
  l.tag != "SCRIPT" && l.tag != "STYLE"

/-- The label comparator (lines 701-718) as a total preorder for a stable
sort: exact text match first, then smaller top when the vertical gap
exceeds 10 pixels, then shorter text. -/
def labelLE (fn : String) (a b : LabelEl) : Bool :=
  if a.fullText == fn && b.fullText != fn then true
  else if b.fullText == fn && a.fullText != fn then false
  else if (a.top - b.top).natAbs > 10 then decide (a.top ≤ b.top)
  else decide (a.fullText.length ≤ b.fullText.length)

/-- Insert an element after all kept elements that compare below-or-equal,
preserving the relative order of ties (stability). -/
def insOrdered (le : α → α → Bool) (x : α) : List α → List α
  | [] => [x]
  | y :: ys => if le y x then y :: insOrdered le x ys else x :: y :: ys

/-- Stable insertion sort, modelling the JavaScript stable Array sort. -/
def sortStable (le : α → α → Bool) (xs : List α) : List α :=
  xs.foldl (fun acc x => insOrdered le x acc) []

/-- What examining one sibling dictates: fill an input, stop the walk (the
break on an already differently-filled input), or move to the next
sibling. -/
inductive SibStep where
  | fillAt (i : Nat)
  | stop
  | next
deriving Repr, DecidableEq

/-- The querySelector branch of the sibling walk (lines 772-795): an input
found inside the sibling, checked for rectangle, disabled, read-only and
an already differing value. -/
def sibInner (inputs : List InputEl) (v : String) (s : SiblingEl) : SibStep :=
  match s.innerInput with
  | some j =>
      match inputs[j]? with
      | some inp =>
          if inp.visible && !inp.disabled && !inp.readOnly then
            if inp.value != "" && inp.value != v then SibStep.stop
            else SibStep.fillAt j
          else SibStep.next
      | none => SibStep.next
  | none => SibStep.next

/-- Examine one sibling (the while body at lines 746-797): first the
sibling as a text/number/untyped input itself (lines 748-771), then the
querySelector branch. -/
def sibStep (inputs : List InputEl) (v : String) (s : SiblingEl) : SibStep :=
  match s.directInput with
  | some i =>
      match inputs[i]? with
      | some inp =>
          if (inp.typ == "text" || inp.typ == "number" || inp.typ == "") then
            if inp.visible && !inp.disabled && !inp.readOnly then
              if inp.value != "" && inp.value != v then SibStep.stop
              else SibStep.fillAt i
            else sibInner inputs v s
          else sibInner inputs v s
      | none => sibInner inputs v s
  | none => sibInner inputs v s

/-- The following-sibling walk for one label (lines 746-797).  Returns the
updated inputs when a fill happened; `none` both when the walk ran out of
siblings and when it stopped at an input already holding a different,
non-empty value (the break at lines 754-757 / 778-781) — in either case
control continues with the closest-unfilled search. -/
def walkSiblings (inputs : List InputEl) (v : String) :
    List SiblingEl → Option (List InputEl × Nat)
  | [] => none
  | s :: rest =>
      match sibStep inputs v s with
      | SibStep.fillAt i => some (setInput inputs i v, 1)
      | SibStep.stop => none
      | SibStep.next => walkSiblings inputs v rest

/-- Weighted squared distance between a label and an input (lines
807-818), scaled by 2 to stay integral: the source compares
sqrt(dv^2 + dh^2 * 0.5), which orders pairs exactly as 2*dv^2 + dh^2. -/
def weightedDist2 (l : LabelEl) (inp : InputEl) : Nat :=
  2 * ((inp.top - l.top).natAbs) ^ 2 + ((inp.left - l.left).natAbs) ^ 2

/-- Index of the unfilled input closest to the label, first match winning
ties (the stable sort at line 821 followed by taking the head). -/
def closestUnfilled (l : LabelEl) (inputs : List InputEl) : Option (Nat × Nat) :=
  go 0 inputs
where
  go (k : Nat) : List InputEl → Option (Nat × Nat)
    | [] => none
    | inp :: rest =>
        let tail := go (k + 1) rest
        if ns1InputOk inp && inp.value == "" then
          match tail with
          | none => some (k, weightedDist2 l inp)
          | some (j, dj) =>
              if weightedDist2 l inp ≤ dj then some (k, weightedDist2 l inp)
              else some (j, dj)
        else tail

/-- Process one label (the body of the for loop at lines 720-845). -/
def tryLabel (inputs : List InputEl) (v : String) (l : LabelEl) :
    Option (List InputEl × Nat) :=
  -- explicit for= linkage (lines 722-740): filled unconditionally,
  -- with no already-filled check
  match (if l.tag == "LABEL" then l.forInput else none) with
  | some i => some (setInput inputs i v, 1)
  | none =>
      match walkSiblings inputs v l.siblings with
      | some r => some r
      | none =>
          -- closest unfilled input within the proximity bound (lines
          -- 799-844); the source compares the weighted distance with 300,
          -- i.e. the scaled squared distance with 180000
          match closestUnfilled l inputs with
          | some (i, d2) =>
              if d2 < 180000 then some (setInput inputs i v, 1) else none
          | none => none

/-- Loop over the sorted labels, stopping at the first fill. -/
def tryLabels (inputs : List InputEl) (v : String) :
    List LabelEl → Option (List InputEl × Nat)
  | [] => none
  | l :: ls =>
      match tryLabel inputs v l with
      | some r => some r
      | none => tryLabels inputs v ls

/-- Numeric strategy 1: the whole evaluate of lines 658-849.  Pure
in-page JavaScript; returns the updated inputs, whether a field was
filled, and the number of DOM mutations performed. -/
def numeric_strategy1 (labels : List LabelEl) (inputs : List InputEl)
    (fn v : String) : List InputEl × Bool × Nat :=
  let cands := sortStable (labelLE fn) (labels.filter (labelCandidate fn))
  match tryLabels inputs v cands with
  | some (inputs', m) => (inputs', true, m)
  | none => (inputs, false, 0)

/-! ## Numeric path, strategy 2 (lines 860-914)

Generic attribute selectors tried in order; a unique match is filled
directly, multiple matches are disambiguated by the surrounding context.
Locator fills go through Playwright actionability and raise on hidden,
disabled or read-only inputs; the per-selector try/except catches that
and moves to the next selector. -/

/-- The lower-cased field name with spaces turned into underscores
(Python lower().replace applied to the single-character pattern). -/
def underscoreName (fn : String) : String :=
  String.mk ((lowerStr fn).toList.map (fun c => if c == ' ' then '_' else c))

/-- The lower-cased field name with spaces removed. -/
def compactName (fn : String) : String :=
  String.mk ((lowerStr fn).toList.filter (fun c => c != ' '))

/-- The seven selectors of input_selectors (lines 862-873), as predicates
over an input.  CSS attribute substring match is case-sensitive. -/
def selectorHits (fn : String) (k : Nat) (i : InputEl) : Bool :=
  if k == 0 then strContains i.placeholder fn
  else if k == 1 then strContains i.ariaLabel fn
  else if k == 2 then i.name == underscoreName fn
  else if k == 3 then i.name == compactName fn
  else if k == 4 then i.typ == "number"
  else if k == 5 then i.typ == "text" && i.inputmode == "decimal"
  else if k == 6 then i.typ == "text" && i.inputmode == "numeric"
  else false

/-- Indices of the inputs a selector matches (locators count attached
elements regardless of visibility). -/
def selectorIdx (inputs : List InputEl) (fn : String) (k : Nat) : List Nat :=
  go 0 inputs
where
  go (j : Nat) : List InputEl → List Nat
    | [] => []
    | i :: rest =>
        if selectorHits fn k i then j :: go (j + 1) rest else go (j + 1) rest

/-- A locator fill (locator.fill): raises unless the input is visible,
enabled and editable; on success overwrites the value unconditionally. -/
def locatorFill (inputs : List InputEl) (i : Nat) (v : String) :
    Except Unit (List InputEl) :=
  match inputs[i]? with
  | none => .error ()
  | some inp =>
      if inp.visible && !inp.disabled && !inp.readOnly then
        .ok (setInput inputs i v)
      else .error ()

/-- The context check run per element when a selector matches several
inputs (lines 890-902): the closest field-like container or the previous
sibling mentions the field name. -/
def ctxMatches (fn : String) (i : InputEl) : Bool :=
  (match i.ctxText with
   | some t => strContains t fn
   | none => false) ||
  (match i.prevSibText with
   | some t => strContains t fn
   | none => false)

/-- One selector attempt (the try body at lines 876-911). -/
def s2TrySelector (inputs : List InputEl) (fn v : String) (k : Nat) :
    Except Unit (List InputEl × Bool × Nat) :=
  match selectorIdx inputs fn k with
  | [] => .ok (inputs, false, 0)
  | [i] =>
      match locatorFill inputs i v with
      | .ok inputs' => .ok (inputs', true, 1)
      | .error e => .error e
  | idx =>
      match idx.find? (fun i =>
          match inputs[i]? with
          | some inp => ctxMatches fn inp
          | none => false) with
      | none => .ok (inputs, false, 0)
      | some i =>
          match locatorFill inputs i v with
          | .ok inputs' => .ok (inputs', true, 1)
          | .error e => .error e

/-- Numeric strategy 2: iterate the selectors, catching per-selector
exceptions and stopping at the first fill. -/
def numeric_strategy2 (inputs : List InputEl) (fn v : String) :
    List InputEl × Bool × Nat :=
  go inputs [0, 1, 2, 3, 4, 5, 6]
where
  go (inputs : List InputEl) : List Nat → List InputEl × Bool × Nat
    | [] => (inputs, false, 0)
    | k :: ks =>
        match s2TrySelector inputs fn v k with
        | .ok (inputs', true, m) => (inputs', true, m)
        | .ok (_, false, _) => go inputs ks
        | .error _ => go inputs ks

/-! ## Discrete path: the four clicking strategies (lines 916-1104)

The selected state of the controls is the list of Booleans `sel`,
parallel to the control list; clicking control `i` toggles `sel i`
(environment semantics, see the header).  Locator and element-handle
clicks raise when the control is not actionable; the JavaScript click of
strategy 4 always lands. -/

/-- Selected (teal background) state of control `i`. -/
def isSel (sel : List Bool) (i : Nat) : Bool :=
  sel.getD i false

/-- Click control `i`: toggle its selected state. -/
def clickAt (sel : List Bool) (i : Nat) : List Bool :=
  sel.set i (!(sel.getD i false))

/-- Candidate filter of strategy 1 (line 923): a button containing the
value text (has-text is a case-insensitive substring match). -/
def btnHasText (v : String) (c : DiscreteControl) : Bool :=
  c.tag == CTag.button && strContainsCI c.text v

/-- Candidate filter of strategy 2 (line 938): a div whose exact text is
the value. -/
def divTextIs (v : String) (c : DiscreteControl) : Bool :=
  c.tag == CTag.div && c.text == v

/-- Candidate filter of the first locator of strategy 3 (line 989):
button or div with the exact text. -/
def eitherTextIs (v : String) (c : DiscreteControl) : Bool :=
  (c.tag == CTag.button || c.tag == CTag.div) && c.text == v

/-- Candidate filter of the fallback locator of strategy 3 (line 995). -/
def eitherHasText (v : String) (c : DiscreteControl) : Bool :=
  (c.tag == CTag.button || c.tag == CTag.div) && strContainsCI c.text v

/-- Indices of the controls satisfying a predicate, in DOM order. -/
def ctrlIdx (p : DiscreteControl → Bool) (ctrls : List DiscreteControl) :
    List Nat :=
  go 0 ctrls
where
  go (j : Nat) : List DiscreteControl → List Nat
    | [] => []
    | c :: rest => if p c then j :: go (j + 1) rest else go (j + 1) rest

/-- Strategy 1 (lines 921-931): page.click on the first button whose text
contains the value; no selected-state check before the click. -/
def discrete_strategy1 (ctrls : List DiscreteControl) (sel : List Bool)
    (v : String) : Except Unit (List Bool × Bool × Nat) :=
  match ctrlIdx (btnHasText v) ctrls with
  | [] => .ok (sel, false, 0)
  | i :: _ =>
      match ctrls[i]? with
      | some c => if c.actionable then .ok (clickAt sel i, true, 1) else .error ()
      | none => .error ()

/-- Strategy 2 (lines 933-979): when exactly one div carries the exact
text, check the teal selected background first and click only when it is
absent. -/
def discrete_strategy2 (ctrls : List DiscreteControl) (sel : List Bool)
    (v : String) : Except Unit (List Bool × Bool × Nat) :=
  match ctrlIdx (divTextIs v) ctrls with
  | [i] =>
      if isSel sel i then .ok (sel, true, 0)
      else
        match ctrls[i]? with
        | some c => if c.actionable then .ok (clickAt sel i, true, 1) else .error ()
        | none => .error ()
  | _ => .ok (sel, false, 0)

/-- The element handles strategy 3 walks (lines 989-996): the exact-text
buttons and divs or, when there are none, the substring matches. -/
def s3Handles (ctrls : List DiscreteControl) (v : String) : List Nat :=
  match ctrlIdx (eitherTextIs v) ctrls with
  | [] => ctrlIdx (eitherHasText v) ctrls
  | hs => hs

/-- Strategy 3 (lines 981-1043): all exact-text buttons and divs (or, when
none, substring matches); the first whose bounded ancestor chain mentions
the field name is teal-checked and clicked. -/
def discrete_strategy3 (ctrls : List DiscreteControl) (sel : List Bool)
    (fn v : String) : Except Unit (List Bool × Bool × Nat) :=
  match (s3Handles ctrls v).find? (fun i =>
      match ctrls[i]? with
      | some c => strContains c.ancestorText fn
      | none => false) with
  | none => .ok (sel, false, 0)
  | some i =>
      if isSel sel i then .ok (sel, true, 0)
      else
        match ctrls[i]? with
        | some c => if c.actionable then .ok (clickAt sel i, true, 1) else .error ()
        | none => .error ()

/-- Shape filter of strategy 4 (line 1052): buttons, divs with a button
role, option- or button-like classes, or an onclick attribute. -/
def s4Shape (c : DiscreteControl) : Bool :=
  c.tag == CTag.button ||
  (c.tag == CTag.div &&
    (c.role == "button" || strContains c.className "option" ||
     strContains c.className "button" || c.onclickAttr))

/-- Strategy 4 (lines 1045-1101): pure JavaScript scan; the first shaped
element whose text contains the value near an ancestor mentioning the
field name is teal-checked, then clicked through direct event dispatch
(which never raises). -/
def discrete_strategy4 (ctrls : List DiscreteControl) (sel : List Bool)
    (fn v : String) : List Bool × Bool × Nat :=
  match (ctrlIdx s4Shape ctrls).find? (fun i =>
      match ctrls[i]? with
      | some c =>
          (c.text == v || strContains c.text v) && strContains c.ancestorText fn
      | none => false) with
  | none => (sel, false, 0)
  | some i =>
      if isSel sel i then (sel, true, 0) else (clickAt sel i, true, 1)

/-- The per-strategy try/except of the source: an exception leaves the
page unmutated (clicks are atomic) and the strategy unhandled. -/
def caught (sel : List Bool) (e : Except Unit (List Bool × Bool × Nat)) :
    List Bool × Bool × Nat :=
  match e with
  | .ok r => r
  | .error _ => (sel, false, 0)

/-- The discrete path: strategies 1-4 in order, each wrapped in the
per-strategy try/except of the source, stopping as soon as one reports
the assignment handled. -/
def discrete_path (ctrls : List DiscreteControl) (sel : List Bool)
    (fn v : String) : List Bool × Bool × Nat :=
  let r1 := caught sel (discrete_strategy1 ctrls sel v)
  if r1.2.1 then r1
  else
    let r2 := caught r1.1 (discrete_strategy2 ctrls r1.1 v)
    if r2.2.1 then (r2.1, true, r1.2.2 + r2.2.2)
    else
      let r3 := caught r2.1 (discrete_strategy3 ctrls r2.1 fn v)
      if r3.2.1 then (r3.1, true, r1.2.2 + r2.2.2 + r3.2.2)
      else
        let r4 := discrete_strategy4 ctrls r3.1 fn v
        (r4.1, r4.2.1, r1.2.2 + r2.2.2 + r3.2.2 + r4.2.2)

/-! ## Result Extraction Engine (the evaluate at lines 1197-1305)

Pure in-page JavaScript over the rendered result markup.  The regular
expressions of the source are implemented as character-list scanners with
the same matching semantics (leftmost match, greedy quantifiers, the
JavaScript dot not crossing newlines). -/

/-- The first maximal run of digits in a string, i.e. the first capture of
a leftmost (backslash-d)+ match. -/
def firstDigitRun : List Char → Option String
  | [] => none
  | c :: t =>
      if c.isDigit then some (String.mk ((c :: t).takeWhile Char.isDigit))
      else firstDigitRun t

/-- Optional score unit at the end of the anchored score pattern. -/
def scoreUnitOk (cs : List Char) : Bool :=
  cs.isEmpty || ciIs cs "points" || ciIs cs "point" || ciIs cs "pts" || ciIs cs "pt"

/-- The anchored pattern of extraction strategy 2 (line 1242): the whole
trimmed text is digits, optional whitespace and an optional unit word. -/
def anchoredScore (s : String) : Option String :=
  let cs := s.toList
  let ds := cs.takeWhile Char.isDigit
  if ds.isEmpty then none
  else
    let rest := (cs.drop ds.length).dropWhile Char.isWhitespace
    if scoreUnitOk rest then some (String.mk ds) else none

/-- Length of a match of digits, an optional dot with further digits, and
a percent sign, at the head of the list. -/
def numPercentEnd (cs : List Char) : Option Nat :=
  let ds := cs.takeWhile Char.isDigit
  if ds.isEmpty then none
  else
    match cs.drop ds.length with
    | '%' :: _ => some (ds.length + 1)
    | '.' :: r =>
        let fs := r.takeWhile Char.isDigit
        match r.drop fs.length with
        | '%' :: _ => some (ds.length + 1 + fs.length + 1)
        | _ => none
    | _ => none

/-- Characters consumed up to and including the earliest risk keyword
(risk, mortality, per year — alternation order at equal positions),
without crossing a newline (the JavaScript dot). -/
def keywordEndFrom : List Char → Option Nat
  | [] => none
  | c :: t =>
      if c == '\n' then none
      else if ciIs ((c :: t).take 4) "risk" then some 4
      else if ciIs ((c :: t).take 9) "mortality" then some 9
      else if ciIs ((c :: t).take 8) "per year" then some 8
      else
        match keywordEndFrom t with
        | some n => some (n + 1)
        | none => none

/-- The risk pattern of extraction strategy 1 (line 1221): a percentage
followed, within the same line, by a risk keyword; the returned string is
the whole match. -/
def riskScan : List Char → Option String
  | [] => none
  | c :: t =>
      match numPercentEnd (c :: t) with
      | some n =>
          match keywordEndFrom ((c :: t).drop n) with
          | some m => some (String.mk ((c :: t).take (n + m)))
          | none => riskScan t
      | none => riskScan t

/-- Tail of the interpretation pattern (line 1263) after the tier word:
optional whitespace, Score or Risk, optional whitespace, an optional
opening parenthesis, a points range and an optional closing parenthesis.
Returns the number of characters consumed. -/
def interpTail (cs : List Char) : Option Nat :=
  let ws1 := (cs.takeWhile Char.isWhitespace).length
  let r1 := cs.drop ws1
  let kwLen :=
    if ciIs (r1.take 5) "score" then some 5
    else if ciIs (r1.take 4) "risk" then some 4
    else none
  match kwLen with
  | none => none
  | some k =>
      let r2 := r1.drop k
      let ws2 := (r2.takeWhile Char.isWhitespace).length
      let r3 := r2.drop ws2
      let parOpen := if r3.head? == some '(' then 1 else 0
      let r4 := r3.drop parOpen
      let ds := r4.takeWhile Char.isDigit
      if ds.isEmpty then none
      else
        let r5 := r4.drop ds.length
        let dash := if r5.head? == some '-' then 1 else 0
        let r6 := r5.drop dash
        let ds2 := (r6.takeWhile Char.isDigit).length
        let r7 := r6.drop ds2
        let ws3 := (r7.takeWhile Char.isWhitespace).length
        let r8 := r7.drop ws3
        if ciIs (r8.take 5) "point" then
          let r9 := r8.drop 5
          let sLen := if r9.head? == some 's' || r9.head? == some 'S' then 1 else 0
          let r10 := r9.drop sLen
          let parClose := if r10.head? == some ')' then 1 else 0
          some (ws1 + k + ws2 + parOpen + ds.length + dash + ds2 + ws3 + 5 +
                sLen + parClose)
        else none

/-- Length of an interpretation match starting here: a Low / Moderate /
High tier word followed by `interpTail`. -/
def interpAt (cs : List Char) : Option Nat :=
  let tier :=
    if ciIs (cs.take 3) "low" then some 3
    else if ciIs (cs.take 8) "moderate" then some 8
    else if ciIs (cs.take 4) "high" then some 4
    else none
  match tier with
  | none => none
  | some n =>
      match interpTail (cs.drop n) with
      | some m => some (n + m)
      | none => none

/-- Leftmost interpretation match in a string, returning the whole match. -/
def interpMatch (s : String) : Option String :=
  go s.toList
where
  go : List Char → Option String
    | [] => none
    | c :: t =>
        match interpAt (c :: t) with
        | some n => some (String.mk ((c :: t).take n))
        | none => go t

/-- Unit alternatives of the points pattern at the head of a list, longest
form first (greedy optional s with backtracking). -/
def pointUnitLens (cs : List Char) : List Nat :=
  if ciIs (cs.take 6) "points" then [6, 5]
  else if ciIs (cs.take 5) "point" then [5]
  else if ciIs (cs.take 3) "pts" then [3, 2]
  else if ciIs (cs.take 2) "pt" then [2]
  else []

/-- Negative lookahead of pattern 1 (line 1279): fails when optional
whitespace followed by a plus or minus sign comes next. -/
def noSignAhead (cs : List Char) : Bool :=
  match (cs.dropWhile Char.isWhitespace).head? with
  | some '+' => false
  | some '-' => false
  | _ => true

/-- Pattern 1 of extraction strategy 3 (line 1279): digits, mandatory
whitespace, a points unit whose chosen length survives the lookahead.
Returns the captured digits. -/
def pointsScan : List Char → Option String
  | [] => none
  | c :: t =>
      (if c.isDigit then
        let ds := (c :: t).takeWhile Char.isDigit
        let rest := (c :: t).drop ds.length
        let ws := (rest.takeWhile Char.isWhitespace).length
        if ws == 0 then none
        else
          let r1 := rest.drop ws
          if (pointUnitLens r1).any (fun n => noSignAhead (r1.drop n)) then
            some (String.mk ds)
          else none
      else none).orElse (fun _ => pointsScan t)

/-- Pattern 2 of extraction strategy 3 (line 1284): the word Score, one or
more colons or whitespace characters, then digits (captured). -/
def scoreColonScan : List Char → Option String
  | [] => none
  | c :: t =>
      (if ciIs ((c :: t).take 5) "score" then
        let r1 := (c :: t).drop 5
        let sep := (r1.takeWhile (fun ch => ch == ':' || ch.isWhitespace)).length
        if sep == 0 then none
        else
          let ds := (r1.drop sep).takeWhile Char.isDigit
          if ds.isEmpty then none else some (String.mk ds)
      else none).orElse (fun _ => scoreColonScan t)

/-- Pattern 3 of extraction strategy 3 (line 1290): a number with an
optional fractional part followed by a lab unit; the captured number. -/
def labValueScan : List Char → Option String
  | [] => none
  | c :: t =>
      (if c.isDigit then
        let ds := (c :: t).takeWhile Char.isDigit
        let rest := (c :: t).drop ds.length
        let (fracLen, afterNum) :=
          match rest with
          | '.' :: r => (1 + (r.takeWhile Char.isDigit).length,
                         r.drop (r.takeWhile Char.isDigit).length)
          | _ => (0, rest)
        let r1 := afterNum.dropWhile Char.isWhitespace
        if ciIs (r1.take 5) "mg/dl" || ciIs (r1.take 6) "mmol/l" then
          some (String.mk ((c :: t).take (ds.length + fracLen)))
        else none
      else none).orElse (fun _ => labValueScan t)

/-- One result container (the selector at line 1205) with the texts of its
heading-level elements (line 1210). -/
structure ResultContainer where
  headings : List String
  text : String
deriving Repr, DecidableEq

/-- One element of the prominence scan of strategy 2 (line 1234). -/
structure ProseEl where
  text : String
  fontSize : Nat
  visible : Bool
deriving Repr, DecidableEq

/-- The result markup as read by the extraction evaluate. -/
structure ExtractDom where
  resultContainers : List ResultContainer
  proseEls : List ProseEl
  /-- trimmed texts of every element, for the interpretation scan
      (line 1259). -/
  allTexts : List String
  /-- the visible body text (line 1275). -/
  bodyText : String
deriving Repr, DecidableEq

/-- What the extraction evaluate returns (lines 1298-1303). -/
structure ExtractOut where
  score : Option String
  risk : Option String
  interpretation : Option String
  success : Bool
deriving Repr, DecidableEq

/-- Strategy 1 (lines 1203-1229): first container one of whose headings
contains a number; the risk is then read from the same container text. -/
def extractStrat1 : List ResultContainer → Option (String × Option String)
  | [] => none
  | c :: rest =>
      match c.headings.findSome? (fun h => firstDigitRun h.toList) with
      | some ds => some (ds ++ " points", riskScan c.text.toList)
      | none => extractStrat1 rest

/-- Strategy 2 (lines 1231-1255): first short, visible, large-font element
whose whole text is an anchored score. -/
def extractStrat2 (els : List ProseEl) : Option String :=
  els.findSome? (fun e =>
    if e.text.length > 50 then none
    else
      match anchoredScore e.text with
      | some ds => if e.visible && e.fontSize ≥ 24 then some (ds ++ " points") else none
      | none => none)

/-- Strategy 3 (lines 1272-1296): generic patterns over the body text. -/
def extractStrat3 (body : String) : Option String :=
  match pointsScan body.toList with
  | some ds => some (ds ++ " points")
  | none =>
      match scoreColonScan body.toList with
      | some ds => some (ds ++ " points")
      | none =>
          match labValueScan body.toList with
          | some n => some (n ++ " mg/dL")
          | none => none

/-- The whole extraction evaluate.  The success flag is computed at line
1302 as the truthiness of score or risk. -/
def extract_results (d : ExtractDom) : ExtractOut :=
  let s1 := extractStrat1 d.resultContainers
  let scoreA : Option String := s1.map Prod.fst
  let risk : Option String := s1.bind Prod.snd
  let scoreB :=
    match scoreA with
    | some s => some s
    | none => extractStrat2 d.proseEls
  let interpretation :=
    d.allTexts.findSome? (fun t => if t.length < 100 then interpMatch t else none)
  let score :=
    match scoreB with
    | some s => some s
    | none => extractStrat3 d.bodyText
  { score := score, risk := risk, interpretation := interpretation,
    success := score.isSome || risk.isSome }

/-! ## The execution page and `execute_calculator` (lines 589-1319) -/

/-- State of one navigated calculator page during execution. -/
structure Page where
  inputs : List InputEl
  labels : List LabelEl
  controls : List DiscreteControl
  /-- selected (teal) state per control, parallel to `controls`. -/
  sel : List Bool
  /-- the result markup at extraction time. -/
  resultDom : ExtractDom
  /-- environment: the screenshot calls raise on this page. -/
  shotFails : Bool
  /-- bytes a successful screenshot produces. -/
  render : Bytes
  /-- measured content height including results (lines 1121-1145). -/
  contentHeight : Nat
  viewportHeight : Nat
  zoom : Nat
deriving Repr, DecidableEq

/-- Apply one field-name/value assignment (the loop body at lines
636-1112): numeric classification, the two numeric strategies, then the
four clicking strategies; the trailing settle waits have no DOM effect.
Returns the page and the number of DOM mutations performed. -/
def apply_assignment (p : Page) (fn v : String) : Page × Nat :=
  let numeric := is_numeric_value v
  let filledStep :=
    if numeric then
      -- strategy 1 is wrapped in try/except at lines 655-858; the
      -- evaluate is pure, so the catch is never exercised
      let (i1, f1, a1) := numeric_strategy1 p.labels p.inputs fn v
      if f1 then (i1, true, a1)
      else
        let (i2, f2, a2) := numeric_strategy2 i1 fn v
        (i2, f2, a1 + a2)
    else (p.inputs, false, 0)
  let (inputsN, filled, mN) := filledStep
  let clickStep :=
    if !filled then discrete_path p.controls p.sel fn v
    else (p.sel, false, 0)
  let (selN, _clicked, mC) := clickStep
  ({ p with inputs := inputsN, sel := selN }, mN + mC)

/-- The assignment loop (line 636): every entry of the ordered map is
attempted, in order; per-assignment failures are logged and never
propagate.  Returns the final page, the attempted field names in order,
and the total mutation count. -/
def run_assignments (p : Page) :
    List (String × String) → Page × List String × Nat
  | [] => (p, [], 0)
  | (fn, v) :: rest =>
      let (p1, m) := apply_assignment p fn v
      let (p2, names, ms) := run_assignments p1 rest
      (p2, fn :: names, m + ms)

/-- The result-capture zoom (lines 1149-1151): 85 percent margin, clamped
to the interval from 40 to 100. -/
def result_zoom (contentH viewportH : Nat) : Nat :=
  max 40 (min (viewportH * 85 / contentH) 100)

/-- The result screenshot block (lines 1117-1194): zoom to fit the content
including results, screenshot; when the screenshot raises, the except
block attempts one more screenshot, which raises again on the same page
and is swallowed.  The debug screenshot written to the test directory is
filesystem-only and omitted. -/
def result_capture (p : Page) : Page × Option Bytes :=
  let pz :=
    if p.contentHeight > p.viewportHeight then
      { p with zoom := result_zoom p.contentHeight p.viewportHeight }
    else p
  if pz.shotFails then (pz, none) else (pz, some pz.render)

/-- What `execute_calculator` returns to its caller. -/
structure ExecOutcome where
  score : Option String
  risk : Option String
  interpretation : Option String
  success : Bool
  result_screenshot_base64 : Option Bytes
deriving Repr, DecidableEq

/-- The observable result of one execution: the returned outcome plus the
trace facts the theorems below talk about. -/
structure ExecResult where
  outcome : ExecOutcome
  /-- field names attempted by the loop, in order. -/
  attempted : List String
  /-- total number of DOM mutations (fills and clicks). -/
  mutationCount : Nat
  finalPage : Page
deriving Repr, DecidableEq

/-- The whole of `execute_calculator` after navigation: a navigation
timeout propagates to the caller; otherwise the assignment loop runs, the
result capture is taken, and the extraction evaluate produces the
outcome. -/
def execute_calculator (nav : Except String Page)
    (assignments : List (String × String)) : Except String ExecResult :=
  match nav with
  | .error e => .error e
  | .ok p =>
      let (p1, attempted, muts) := run_assignments p assignments
      let (p2, shot) := result_capture p1
      let r := extract_results p2.resultDom
      .ok { outcome := { score := r.score, risk := r.risk,
                         interpretation := r.interpretation,
                         success := r.success,
                         result_screenshot_base64 := shot },
            attempted := attempted, mutationCount := muts, finalPage := p2 }

/-! ## OAuth token validation and the MCP endpoint (`auth.py`, `server.py`) -/

/-- One key of the JSON Web Key Set fetched from Auth0. -/
structure JwksKey where
  kid : String
  kty : String
  use : String
  n : String
  e : String
deriving Repr, DecidableEq

/-- The decoded claims of a token. -/
structure TokenClaims where
  /-- space-separated scope string. -/
  scope : String
deriving Repr, DecidableEq

/-- A presented bearer token, abstracted to the outcomes of the
cryptographic checks the validation performs. -/
structure BearerToken where
  /-- key id in the token header. -/
  kid : String
  /-- the RS256 signature verifies against the matching JWKS key. -/
  sigValid : Bool
  /-- the token is past its expiry. -/
  expired : Bool
  /-- the audience claim matches the configured API audience. -/
  audMatches : Bool
  /-- the issuer claim matches the configured issuer. -/
  issMatches : Bool
  claims : TokenClaims
deriving Repr, DecidableEq

/-- Modelled from the spec: the decode step of the third-party jose
library (not part of the repository) verifies the signature against the
selected key and checks expiry, audience and issuer, raising JWTError on
any failure — exactly the checks listed in the `verify_token` docstring
(auth.py lines 45-49). -/
def jwtDecode (t : BearerToken) : Except Unit TokenClaims :=
  if t.sigValid && !t.expired && t.audMatches && t.issMatches then .ok t.claims
  else .error ()

/-- A structured HTTP error response (FastAPI HTTPException). -/
structure AuthFailure where
  status : Nat
  detail : String
deriving Repr, DecidableEq

/-- The token validation of `verify_token` (auth.py lines 39-108): find
the JWKS key matching the token key id (401 when absent — the inner
HTTPException is re-caught by the generic handler, still as 401), then
decode; JWTError and any other exception become a 401. -/
def verify_token (jwks : List JwksKey) (t : BearerToken) :
    Except AuthFailure TokenClaims :=
  match jwks.find? (fun k => k.kid == t.kid) with
  | none => .error { status := 401, detail := "Authentication error" }
  | some _ =>
      match jwtDecode t with
      | .ok payload => .ok payload
      | .error _ => .error { status := 401, detail := "Token validation failed" }

/-- Scope extraction (auth.py lines 111-123): split the space-separated
scope string, dropping empty pieces (Python str.split with no argument). -/
def get_token_scopes (p : TokenClaims) : List String :=
  (p.scope.split (fun c => c == ' ')).filter (fun s => s != "")

/-- Scope enforcement (auth.py lines 126-141): 403 when the required
scope is missing. -/
def require_scope (required : String) (scopes : List String) :
    Except AuthFailure Unit :=
  if scopes.contains required then .ok ()
  else .error { status := 403, detail := "Insufficient permissions" }

/-- JSON-RPC methods the endpoint dispatches on (server.py lines
147-203). -/
inductive RpcMethod where
  | rpcInit
  | rpcNotifyInit
  | toolsList
  | toolsCall (tool : String)
  | unknown (m : String)
deriving Repr, DecidableEq

/-- One HTTP request to the /sse endpoint. -/
structure McpRequest where
  token : BearerToken
  method : RpcMethod
deriving Repr, DecidableEq

/-- Observable outcome of handling one request: the HTTP status (200 for
JSON-RPC responses, including JSON-RPC level errors) and how many Engine
operations — each opening a browser page — were invoked. -/
structure Handled where
  status : Nat
  engineCalls : Nat
  pagesOpened : Nat
deriving Repr, DecidableEq

/-- How many browser pages one tool call opens (server.py lines 334-521):
the catalog listing reads a static file; search, inspection and execution
each open one page. -/
def tool_pages (tool : String) : Nat :=
  if tool == "mdcalc_search" || tool == "mdcalc_get_calculator" ||
     tool == "mdcalc_execute" then 1
  else 0

/-- The scope a tool requires (server.py lines 352-441). -/
def tool_scope (tool : String) : String :=
  if tool == "mdcalc_execute" then "mdcalc:calculate" else "mdcalc:read"

/-- Tool dispatch (execute_tool, server.py lines 334-552): scope failures
re-raise as 403; unknown tools return an error payload with status 200. -/
def execute_tool (tool : String) (scopes : List String) : Handled :=
  if tool == "mdcalc_list_all" || tool == "mdcalc_search" ||
     tool == "mdcalc_get_calculator" || tool == "mdcalc_execute" then
    match require_scope (tool_scope tool) scopes with
    | .ok _ => { status := 200, engineCalls := 1, pagesOpened := tool_pages tool }
    | .error e => { status := e.status, engineCalls := 0, pagesOpened := 0 }
  else { status := 200, engineCalls := 0, pagesOpened := 0 }

/-- The /sse endpoint (server.py lines 118-221): FastAPI resolves the
`Depends(verify_token)` dependency before the handler body runs, so an
invalid token turns into its HTTP error with the body never entered;
otherwise the JSON-RPC method is dispatched. -/
def mcp_endpoint (jwks : List JwksKey) (req : McpRequest) : Handled :=
  match verify_token jwks req.token with
  | .error e => { status := e.status, engineCalls := 0, pagesOpened := 0 }
  | .ok payload =>
      let scopes := get_token_scopes payload
      match req.method with
      | .rpcInit => { status := 200, engineCalls := 0, pagesOpened := 0 }
      | .rpcNotifyInit => { status := 204, engineCalls := 0, pagesOpened := 0 }
      | .toolsList => { status := 200, engineCalls := 0, pagesOpened := 0 }
      | .toolsCall tool => execute_tool tool scopes
      | .unknown _ => { status := 200, engineCalls := 0, pagesOpened := 0 }

/-! ## Calculator search (`search_calculators`, lines 207-297) -/

/-- One matched result row on the search page. -/
structure SearchRow where
  /-- the href of the calc link inside the row, when present. -/
  calcLink : Option String
  title : String
  description : String
deriving Repr, DecidableEq

/-- The search results page as read by the evaluate at lines 248-291. -/
structure SearchDom where
  /-- text of the no-results message element, when present. -/
  noToolMessage : Option String
  rows : List SearchRow
deriving Repr, DecidableEq

/-- One returned search hit. -/
structure SearchHit where
  title : String
  description : String
  url : String
  id : Option String
  slug : Option String
deriving Repr, DecidableEq

/-- Digits following the first calc/ segment of an href (the regex at
line 275). -/
def hrefId (href : String) : Option String :=
  go href.toList
where
  go : List Char → Option String
    | [] => none
    | c :: t =>
        if ciJust (c :: t) then
          let r := (c :: t).drop 5
          let ds := r.takeWhile Char.isDigit
          if ds.isEmpty then go t else some (String.mk ds)
        else go t
  /-- literal match of calc/ at the head (case-sensitive). -/
  ciJust (cs : List Char) : Bool :=
    cs.take 5 == ('c' :: 'a' :: 'l' :: 'c' :: '/' :: [])

/-- The slug segment after calc/digits/ (the regex at line 276). -/
def hrefSlug (href : String) : Option String :=
  go href.toList
where
  go : List Char → Option String
    | [] => none
    | c :: t =>
        if (c :: t).take 5 == ('c' :: 'a' :: 'l' :: 'c' :: '/' :: []) then
          let r := (c :: t).drop 5
          let ds := r.takeWhile Char.isDigit
          if ds.isEmpty then go t
          else
            match r.drop ds.length with
            | '/' :: rest =>
                let seg := rest.takeWhile (fun ch => ch != '/')
                if seg.isEmpty then go t else some (String.mk seg)
            | _ => go t
        else go t

/-- Map one result row (lines 270-289): rows without a calc link become
null and are filtered out, as are items with a falsy url. -/
def rowToHit (r : SearchRow) : Option SearchHit :=
  match r.calcLink with
  | none => none
  | some href =>
      if href == "" then none
      else some { title := r.title, description := r.description, url := href,
                  id := hrefId href, slug := hrefSlug href }

/-- The in-page extraction of `search_calculators` (lines 248-291): the
no-results message yields the empty list; otherwise the matched rows are
sliced to the first `limit` and mapped. -/
def search_calculators_eval (d : SearchDom) (limit : Nat) : List SearchHit :=
  let noTool :=
    match d.noToolMessage with
    | some msg => strContains msg "No tool"
    | none => false
  if noTool then []
  else if d.rows.isEmpty then []
  else (d.rows.take limit).filterMap rowToHit

/-- The whole of `search_calculators`: navigation and the search
interaction may raise (propagated to the caller, the page closed by the
finally); on success the evaluate result is returned. -/
def search_calculators (nav : Except String SearchDom) (limit : Nat) :
    Except String (List SearchHit) :=
  match nav with
  | .error e => .error e
  | .ok d => .ok (search_calculators_eval d limit)

/-! ## Concrete pages used by witnesses and counterexamples -/

/-- An empty result markup. -/
def emptyDom : ExtractDom :=
  { resultContainers := [], proseEls := [], allTexts := [], bodyText := "" }

/-- A snapshot page taller than the viewport whose screenshot succeeds. -/
def wSnapOverflow : SnapPage :=
  { calcHeight := 2200, lastFieldBottom := 2000, viewportHeight := 1080,
    discoveredFields := [], title := "SOFA Score", shotFails := false,
    render := [1, 2, 3], zoom := 100, overlaysHidden := false }

/-- A snapshot page on which the screenshot call raises (used against the
claim that the restore always runs). -/
def cxSnapRestore : SnapPage :=
  { calcHeight := 2200, lastFieldBottom := 2000, viewportHeight := 1080,
    discoveredFields := ["History"], title := "HEART Score", shotFails := true,
    render := [9], zoom := 100, overlaysHidden := false }

/-- A snapshot page on which the screenshot call raises (used against the
claim that a capture is always returned). -/
def cxSnapNoCapture : SnapPage :=
  { calcHeight := 900, lastFieldBottom := 800, viewportHeight := 1080,
    discoveredFields := ["Age", "Sex"], title := "CURB-65", shotFails := true,
    render := [4, 5], zoom := 100, overlaysHidden := false }

/-- A discrete control rendered as a real button element. -/
def wButtonCtrl : DiscreteControl :=
  { tag := CTag.button, text := "Yes", actionable := true,
    ancestorText := "Smoker Yes No", role := "", className := "",
    onclickAttr := false }

/-- A discrete control rendered as a div, as MDCalc options are. -/
def wDivCtrl : DiscreteControl :=
  { tag := CTag.div, text := "Moderately suspicious", actionable := true,
    ancestorText := "History Slightly suspicious Moderately suspicious",
    role := "", className := "calc_option", onclickAttr := false }

/-- A page whose only matching control is a button: the unchecked click of
strategy 1 toggles it on every application. -/
def cxButtonPage : Page :=
  { inputs := [], labels := [], controls := [wButtonCtrl], sel := [false],
    resultDom := emptyDom, shotFails := false, render := [1],
    contentHeight := 0, viewportHeight := 1080, zoom := 100 }

/-- A page whose only matching control is a div option. -/
def wDivPage : Page :=
  { inputs := [], labels := [], controls := [wDivCtrl], sel := [false],
    resultDom := emptyDom, shotFails := false, render := [1],
    contentHeight := 0, viewportHeight := 1080, zoom := 100 }

/-- A single already-filled numeric input labelled Weight. -/
def wWeightInput : InputEl :=
  { id := "", name := "weight", typ := "number", inputmode := "",
    placeholder := "kg", ariaLabel := "", value := "70", visible := true,
    disabled := false, readOnly := false, top := 10, left := 10,
    ctxText := some "Weight kg", prevSibText := none }

/-- A page with one filled numeric input and no label matching the
assignment below: the generic selector of numeric strategy 2 still fills
it. -/
def cxNumPage : Page :=
  { inputs := [wWeightInput], labels := [], controls := [], sel := [],
    resultDom := emptyDom, shotFails := false, render := [1],
    contentHeight := 0, viewportHeight := 1080, zoom := 100 }

/-- A page with no inputs at all, for the amended non-destructive-skip
witness. -/
def wEmptyInputsPage : Page :=
  { inputs := [], labels := [], controls := [], sel := [],
    resultDom := emptyDom, shotFails := false, render := [2],
    contentHeight := 0, viewportHeight := 1080, zoom := 100 }

/-- A generic execution page whose screenshot succeeds. -/
def wExecPage : Page :=
  { inputs := [], labels := [], controls := [], sel := [],
    resultDom := emptyDom, shotFails := false, render := [7, 8],
    contentHeight := 0, viewportHeight := 1080, zoom := 100 }

/-- A JWKS with one key. -/
def wJwks : List JwksKey :=
  [{ kid := "k1", kty := "RSA", use := "sig", n := "modulus", e := "AQAB" }]

/-- An expired token whose key id is known. -/
def wExpiredToken : BearerToken :=
  { kid := "k1", sigValid := true, expired := true, audMatches := true,
    issMatches := true, claims := { scope := "mdcalc:read mdcalc:calculate" } }

/-- A request presenting the expired token to the execute tool. -/
def wExpiredReq : McpRequest :=
  { token := wExpiredToken, method := RpcMethod.toolsCall "mdcalc_execute" }

/-- Three search result rows, one of them without a calculator link. -/
def wSearchDom : SearchDom :=
  { noToolMessage := none,
    rows := [
      { calcLink := some "https://www.mdcalc.com/calc/1752/heart-score",
        title := "HEART Score", description := "chest pain" },
      { calcLink := none, title := "ad row", description := "" },
      { calcLink := some "https://www.mdcalc.com/calc/111",
        title := "Other", description := "" }] }

/-- The execution result on `wExecPage` with no assignments: no score, no
risk, success false, capture attached. -/
def wExecEmptyResult : ExecResult :=
  { outcome := { score := none, risk := none, interpretation := none,
                 success := false, result_screenshot_base64 := some [7, 8] },
    attempted := [], mutationCount := 0, finalPage := wExecPage }

/-! ## A guarded-chain abstraction of the clicking strategies

Strategies 2, 3 and 4 share one shape: a candidate control computed from
the immutable structure of the page (tags, texts, classes, ancestors), a
teal-background check that skips the click when the control is already
selected, and a click that can fail only for the locator-based
strategies.  The idempotence proof goes through this abstraction. -/

/-- Whether a click on control `i` lands (locator and element-handle
clicks require actionability). -/
def clickOk (ctrls : List DiscreteControl) (i : Nat) : Bool :=
  match ctrls[i]? with
  | some c => c.actionable
  | none => false

/-- The candidate of strategy 2: the unique exact-text div, when unique. -/
def cand2 (ctrls : List DiscreteControl) (v : String) : Option Nat :=
  match ctrlIdx (divTextIs v) ctrls with
  | [i] => some i
  | _ => none

/-- The candidate of strategy 3: the first exact-text (or, failing that,
substring-text) button or div whose ancestor chain mentions the field
name. -/
def cand3 (ctrls : List DiscreteControl) (fn v : String) : Option Nat :=
  (s3Handles ctrls v).find? (fun i =>
      match ctrls[i]? with
      | some c => strContains c.ancestorText fn
      | none => false)

/-- The candidate of strategy 4: the first shaped clickable containing the
value text near an ancestor mentioning the field name. -/
def cand4 (ctrls : List DiscreteControl) (fn v : String) : Option Nat :=
  (ctrlIdx s4Shape ctrls).find? (fun i =>
      match ctrls[i]? with
      | some c =>
          (c.text == v || strContains c.text v) && strContains c.ancestorText fn
      | none => false)

/-- One teal-guarded strategy step over a candidate: no candidate passes;
a selected candidate is skipped (idempotence guard); an unselected
candidate is clicked when the click lands, and passes otherwise (the
caught exception). -/
def stepOf (cand : Option Nat) (clickable : Nat → Bool) (sel : List Bool) :
    List Bool × Bool :=
  match cand with
  | none => (sel, false)
  | some i =>
      if isSel sel i then (sel, true)
      else if clickable i then (clickAt sel i, true) else (sel, false)

/-- A chain of guarded steps, stopping at the first that handles the
assignment. -/
def chainStep : List (Option Nat × (Nat → Bool)) → List Bool → List Bool × Bool
  | [], sel => (sel, false)
  | (c, ck) :: rest, sel =>
      let r := stepOf c ck sel
      if r.2 then r else chainStep rest r.1

/-- The guarded chain formed by strategies 2, 3 and 4. -/
def strategyChain (ctrls : List DiscreteControl) (fn v : String) :
    List (Option Nat × (Nat → Bool)) :=
  [(cand2 ctrls v, clickOk ctrls), (cand3 ctrls fn v, clickOk ctrls),
   (cand4 ctrls fn v, fun _ => true)]

/-! ## Helper lemmas -/

/-- An assignment only rewrites the inputs and the selection state; all
environment fields of the page are preserved. -/
theorem apply_assignment_env (p : Page) (fn v : String) :
    (apply_assignment p fn v).1.render = p.render ∧
    (apply_assignment p fn v).1.shotFails = p.shotFails ∧
    (apply_assignment p fn v).1.resultDom = p.resultDom ∧
    (apply_assignment p fn v).1.contentHeight = p.contentHeight ∧
    (apply_assignment p fn v).1.viewportHeight = p.viewportHeight ∧
    (apply_assignment p fn v).1.controls = p.controls ∧
    (apply_assignment p fn v).1.labels = p.labels ∧
    (apply_assignment p fn v).1.zoom = p.zoom :=
  ⟨rfl, rfl, rfl, rfl, rfl, rfl, rfl, rfl⟩

/-- The assignment loop preserves the environment fields of the page. -/
theorem run_assignments_env (as : List (String × String)) (p : Page) :
    (run_assignments p as).1.render = p.render ∧
    (run_assignments p as).1.shotFails = p.shotFails ∧
    (run_assignments p as).1.resultDom = p.resultDom ∧
    (run_assignments p as).1.contentHeight = p.contentHeight ∧
    (run_assignments p as).1.viewportHeight = p.viewportHeight ∧
    (run_assignments p as).1.controls = p.controls ∧
    (run_assignments p as).1.labels = p.labels := by
  induction as generalizing p with
  | nil => exact ⟨rfl, rfl, rfl, rfl, rfl, rfl, rfl⟩
  | cons a tl ih =>
      obtain ⟨fn, v⟩ := a
      have happ := apply_assignment_env p fn v
      have htl := ih (apply_assignment p fn v).1
      simp only [run_assignments]
      exact ⟨htl.1.trans happ.1, htl.2.1.trans happ.2.1,
             htl.2.2.1.trans happ.2.2.1, htl.2.2.2.1.trans happ.2.2.2.1,
             htl.2.2.2.2.1.trans happ.2.2.2.2.1,
             htl.2.2.2.2.2.1.trans happ.2.2.2.2.2.1,
             htl.2.2.2.2.2.2.trans happ.2.2.2.2.2.2.1⟩

/-- The attempted-trace of the loop lists every assignment, in caller
order. -/
theorem run_assignments_attempted (as : List (String × String)) (p : Page) :
    (run_assignments p as).2.1 = as.map Prod.fst := by
  induction as generalizing p with
  | nil => rfl
  | cons a tl ih =>
      obtain ⟨fn, v⟩ := a
      simp only [run_assignments, List.map]
      exact congrArg (fn :: ·) (ih (apply_assignment p fn v).1)

/-! ## C3: snapshot zoom computation -/

/-- C3: for a freshly navigated page (body zoom 100), when the measured
target height H exceeds the viewport height V, the zoom in effect at the
snapshot capture equals int((V / H) * 90) clamped to the interval
[50, 100] — with exact arithmetic the Python expression is the natural
floor V * 90 / H — and that zoom lies in [50, 100]; when H does not
exceed V, the zoom stays 100 and no zoom is applied. -/
theorem snapshot_zoom_correct (p : SnapPage) (h100 : p.zoom = 100) :
    (target_height p > p.viewportHeight →
      zoom_at_capture p =
        max 50 (min (p.viewportHeight * 90 / target_height p) 100) ∧
      50 ≤ zoom_at_capture p ∧ zoom_at_capture p ≤ 100) ∧
    (target_height p ≤ p.viewportHeight → zoom_at_capture p = 100) := by
  constructor
  · intro h
    have hz : zoom_at_capture p =
        max 50 (min (p.viewportHeight * 90 / target_height p) 100) := by
      simp [zoom_at_capture, snapshot_zoom, h]
    refine ⟨hz, ?_, ?_⟩
    · rw [hz]; exact le_max_left _ _
    · rw [hz]; exact max_le (by norm_num) (min_le_right _ _)
  · intro h
    simp [zoom_at_capture, h100, Nat.not_lt.mpr h]

/-- Witness for C3 at a page of target height 2000 and viewport 1080:
the zoom formula applies and evaluates to 50 (the clamp raising 48). -/
theorem snapshot_zoom_correct_witness :
    zoom_at_capture wSnapOverflow =
      max 50 (min (wSnapOverflow.viewportHeight * 90 / target_height wSnapOverflow) 100) ∧
    zoom_at_capture wSnapOverflow = 50 :=
  ⟨((snapshot_zoom_correct wSnapOverflow rfl).1 (by decide)).1, by decide⟩

/-! ## C7: scoped hide/zoom release (corrected) -/

/-- C7 counterexample: on a page where the screenshot call raises, the
snapshot call returns (navigation succeeded, the exception was caught)
but the page is left with the overlays still hidden and the body zoom
still at 50 percent — the restore at lines 563-573 sits after the
screenshot inside the same try block, so the failure path skips it. -/
theorem restore_skipped_on_capture_failure :
    (get_calculator_details (Except.ok cxSnapRestore)).toOption.map
      (fun r => (r.2.overlaysHidden, r.2.zoom)) = some (true, 50) := by decide

/-- C7 amended: visibility and zoom are restored on the path where the
screenshot succeeds; when the screenshot raises, the except handler skips
the restore and the page keeps the hidden overlays and the applied zoom
(the page object is closed by the finally of the caller afterwards). -/
theorem restore_runs_on_capture_success (p : SnapPage)
    (h : p.shotFails = false) :
    (snapshot_capture p).1.overlaysHidden = false ∧
    (snapshot_capture p).1.zoom = 100 := by
  simp [snapshot_capture, h]

/-- Witness for the amended C7 on a page whose screenshot succeeds. -/
theorem restore_runs_on_capture_success_witness :
    (snapshot_capture wSnapOverflow).1.overlaysHidden = false ∧
    (snapshot_capture wSnapOverflow).1.zoom = 100 :=
  restore_runs_on_capture_success wSnapOverflow rfl

/-! ## C5: capture presence (corrected) -/

/-- C5 counterexample: a snapshot request whose navigation succeeds but
whose screenshot call raises returns no capture at all — the except at
line 580 swallows the failure and the screenshot_base64 key is never
set — refuting the claim that navigation success alone guarantees
non-empty capture bytes. -/
theorem capture_missing_when_screenshot_fails :
    (get_calculator_details (Except.ok cxSnapNoCapture)).toOption.map
      (fun r => r.1.screenshot_base64) = some none := by decide

/-- C5 amended: whenever navigation succeeds and the screenshot call
itself does not raise, both the snapshot path and the execution path
return the (non-empty) capture bytes — regardless of what structural
field discovery found and regardless of the extraction outcome, over
which the statement quantifies through the arbitrary page contents. -/
theorem capture_present_when_screenshot_succeeds
    (sp : SnapPage) (hs : sp.shotFails = false) (hsr : sp.render ≠ [])
    (p : Page) (hp : p.shotFails = false) (hpr : p.render ≠ [])
    (assigns : List (String × String)) :
    (∃ d q, get_calculator_details (Except.ok sp) = Except.ok (d, q) ∧
        d.screenshot_base64 = some sp.render ∧ sp.render ≠ []) ∧
    (∃ r, execute_calculator (Except.ok p) assigns = Except.ok r ∧
        r.outcome.result_screenshot_base64 = some p.render ∧ p.render ≠ []) := by
  constructor
  · refine ⟨_, _, rfl, ?_, hsr⟩
    obtain ⟨ch, lfb, vh, df, ti, sf, rd, z, ov⟩ := sp
    simp only at hs hsr
    subst hs
    simp only [snapshot_capture, get_calculator_details]
    simp [hsr]
    rfl
  · refine ⟨_, rfl, ?_, hpr⟩
    have henv := run_assignments_env assigns p
    have hsf : (run_assignments p assigns).1.shotFails = false :=
      henv.2.1.trans hp
    have hrd : (run_assignments p assigns).1.render = p.render := henv.1
    show (result_capture (run_assignments p assigns).1).2 = some p.render
    unfold result_capture
    by_cases hc : (run_assignments p assigns).1.contentHeight >
        (run_assignments p assigns).1.viewportHeight
    · simp only [if_pos hc]
      simp [hsf, hrd]
    · simp only [if_neg hc]
      simp [hsf, hrd]

/-- Witness for the amended C5 at concrete snapshot and execution pages. -/
theorem capture_present_witness :
    (∃ d q, get_calculator_details (Except.ok wSnapOverflow) = Except.ok (d, q) ∧
        d.screenshot_base64 = some wSnapOverflow.render ∧ wSnapOverflow.render ≠ []) ∧
    (∃ r, execute_calculator (Except.ok wExecPage) [] = Except.ok r ∧
        r.outcome.result_screenshot_base64 = some wExecPage.render ∧
        wExecPage.render ≠ []) :=
  capture_present_when_screenshot_succeeds wSnapOverflow rfl (by decide)
    wExecPage rfl (by decide) []

/-! ## C2: total, non-aborting resolution -/

/-- C2: for every page (however many of its controls and inputs are
missing, hidden or non-actionable — the quantification covers every
failure configuration) and every ordered assignment list, the execution
whose navigation succeeded returns without raising, and the loop
attempted every assignment, in the caller-supplied order, before control
reached the result-extraction step that produced the returned outcome. -/
theorem resolution_never_aborts (p : Page) (assigns : List (String × String)) :
    ∃ r, execute_calculator (Except.ok p) assigns = Except.ok r ∧
      r.attempted = assigns.map Prod.fst :=
  ⟨_, rfl, run_assignments_attempted assigns p⟩

/-! ## C4: the success flag -/

/-- C4: for every execution whose navigation succeeds, the returned
outcome has success true exactly when the extraction heuristics found a
score value or a risk value (the success flag computed at line 1302);
finding neither yields success false with the result still returned, not
an exception. -/
theorem success_iff_score_or_risk (p : Page) (assigns : List (String × String))
    (r : ExecResult) (h : execute_calculator (Except.ok p) assigns = Except.ok r) :
    r.outcome.success = (r.outcome.score.isSome || r.outcome.risk.isSome) := by
  simp only [execute_calculator] at h
  injection h with h2
  subst h2
  rfl

/-- Witness for C4: the empty result markup yields success false and no
score or risk. -/
theorem success_iff_score_or_risk_witness :
    wExecEmptyResult.outcome.success =
      (wExecEmptyResult.outcome.score.isSome ||
       wExecEmptyResult.outcome.risk.isSome) :=
  success_iff_score_or_risk wExecPage [] wExecEmptyResult rfl

/-! ## C9: invalid tokens are rejected before the Engine -/

/-- C9: any request whose bearer token is expired — or otherwise invalid:
bad signature, wrong audience or issuer, or an unknown key id — is turned
into a structured 401 by the dependency-injected `verify_token` before
the endpoint body runs: no Engine operation is invoked and no browser
page is opened. -/
theorem invalid_token_rejected_before_engine (jwks : List JwksKey)
    (req : McpRequest)
    (h : req.token.expired = true ∨ req.token.sigValid = false ∨
         req.token.audMatches = false ∨ req.token.issMatches = false ∨
         jwks.find? (fun k => k.kid == req.token.kid) = none) :
    mcp_endpoint jwks req = { status := 401, engineCalls := 0, pagesOpened := 0 } := by
  unfold mcp_endpoint verify_token
  cases hf : jwks.find? (fun k => k.kid == req.token.kid) with
  | none => rfl
  | some k =>
      have hbad : (req.token.sigValid && !req.token.expired &&
          req.token.audMatches && req.token.issMatches) = false := by
        rcases h with h | h | h | h | h
        · simp [h]
        · simp [h]
        · simp [h]
        · simp [h]
        · rw [hf] at h; cases h
      simp [jwtDecode, hbad]

/-- Witness for C9: an expired token with a known key id presented to the
execute tool. -/
theorem invalid_token_rejected_witness :
    mcp_endpoint wJwks wExpiredReq =
      { status := 401, engineCalls := 0, pagesOpened := 0 } :=
  invalid_token_rejected_before_engine wJwks wExpiredReq (Or.inl rfl)

/-! ## C10: search result bound -/

/-- C10: for every search page and limit, a search whose navigation
succeeded returns at most limit entries; an empty row set and a
no-results message each yield the empty list, not an error. -/
theorem search_results_bounded (d : SearchDom) (limit : Nat)
    (hits : List SearchHit)
    (h : search_calculators (Except.ok d) limit = Except.ok hits) :
    hits.length ≤ limit ∧
    (d.rows = [] → hits = []) ∧
    (∀ msg, d.noToolMessage = some msg → strContains msg "No tool" = true →
      hits = []) := by
  simp only [search_calculators] at h
  injection h with h2
  subst h2
  refine ⟨?_, ?_, ?_⟩
  · have hcore : ((d.rows.take limit).filterMap rowToHit).length ≤ limit := by
      calc ((d.rows.take limit).filterMap rowToHit).length
          ≤ (d.rows.take limit).length := List.length_filterMap_le _ _
        _ ≤ limit := by rw [List.length_take]; exact min_le_left _ _
    unfold search_calculators_eval
    cases hm : d.noToolMessage with
    | none =>
        simp only [hm]
        by_cases he : d.rows.isEmpty <;> simp [he, hcore]
    | some msg =>
        simp only [hm]
        by_cases ht : strContains msg "No tool" <;>
          by_cases he : d.rows.isEmpty <;> simp [ht, he, hcore]
  · intro hrows
    unfold search_calculators_eval
    simp [hrows]
  · intro msg hmsg hNoTool
    unfold search_calculators_eval
    simp [hmsg, hNoTool]

/-- Witness for C10: three rows, limit two, one row linkless — one hit. -/
theorem search_results_bounded_witness :
    (search_calculators_eval wSearchDom 2).length ≤ 2 :=
  (search_results_bounded wSearchDom 2 (search_calculators_eval wSearchDom 2) rfl).1

/-! ## C8: at-most-once application

Mutation-count bookkeeping: each fill and click site of the translation
contributes one to the count; the lemmas below show each strategy returns
at once after its first mutation, so one assignment mutates the DOM at
most once. -/

/-- A successful sibling walk performed exactly one fill. -/
theorem walkSiblings_muts (v : String) (sibs : List SiblingEl) :
    ∀ (inputs : List InputEl) r, walkSiblings inputs v sibs = some r →
      r.2 = 1 := by
  induction sibs with
  | nil => intro inputs r h; exact absurd h (by simp [walkSiblings])
  | cons s rest ih =>
      intro inputs r h
      unfold walkSiblings at h
      cases hs : sibStep inputs v s with
      | fillAt i => rw [hs] at h; injection h with h2; rw [← h2]
      | stop => rw [hs] at h; cases h
      | next => rw [hs] at h; exact ih inputs r h

/-- A label that resolves performed exactly one fill. -/
theorem tryLabel_muts (inputs : List InputEl) (v : String) (l : LabelEl) :
    ∀ r, tryLabel inputs v l = some r → r.2 = 1 := by
  intro r h
  unfold tryLabel at h
  split at h
  · injection h with h2; subst h2; rfl
  · split at h
    · rename_i w hw
      injection h with h2; subst h2
      exact walkSiblings_muts v l.siblings inputs w hw
    · split at h
      · split at h
        · injection h with h2; subst h2; rfl
        · cases h
      · cases h

/-- The label loop stops at its first fill. -/
theorem tryLabels_muts (v : String) (ls : List LabelEl) :
    ∀ (inputs : List InputEl) r, tryLabels inputs v ls = some r → r.2 = 1 := by
  induction ls with
  | nil => intro inputs r h; cases h
  | cons l rest ih =>
      intro inputs r h
      unfold tryLabels at h
      cases hl : tryLabel inputs v l with
      | some w => rw [hl] at h; injection h with h2; subst h2
                  exact tryLabel_muts inputs v l w hl
      | none => rw [hl] at h; exact ih inputs r h

/-- Numeric strategy 1 mutates at most once, and not at all when it
reports no fill. -/
theorem numeric_strategy1_muts (labels : List LabelEl) (inputs : List InputEl)
    (fn v : String) :
    (numeric_strategy1 labels inputs fn v).2.2 ≤ 1 ∧
    ((numeric_strategy1 labels inputs fn v).2.1 = false →
      (numeric_strategy1 labels inputs fn v).2.2 = 0) := by
  unfold numeric_strategy1
  cases ht : tryLabels inputs v (sortStable (labelLE fn) (labels.filter (labelCandidate fn))) with
  | some w =>
      have := tryLabels_muts v _ inputs w ht
      simp [ht, this]
  | none => simp [ht]

/-- One selector attempt of numeric strategy 2 mutates at most once, and
not at all when it reports no fill. -/
theorem s2TrySelector_muts (inputs : List InputEl) (fn v : String) (k : Nat) :
    ∀ res, s2TrySelector inputs fn v k = Except.ok res →
      res.2.2 ≤ 1 ∧ (res.2.1 = false → res.2.2 = 0) := by
  intro res h
  unfold s2TrySelector at h
  split at h
  · injection h with h2; subst h2; exact ⟨Nat.zero_le _, fun _ => rfl⟩
  · split at h
    · injection h with h2; subst h2
      exact ⟨le_refl 1, by intro hc; cases hc⟩
    · cases h
  · split at h
    · injection h with h2; subst h2; exact ⟨Nat.zero_le _, fun _ => rfl⟩
    · split at h
      · injection h with h2; subst h2
        exact ⟨le_refl 1, by intro hc; cases hc⟩
      · cases h

/-- Numeric strategy 2 mutates at most once, and not at all when it
reports no fill. -/
theorem numeric_strategy2_muts (fn v : String) :
    ∀ (ks : List Nat) (inputs : List InputEl),
      (numeric_strategy2.go fn v inputs ks).2.2 ≤ 1 ∧
      ((numeric_strategy2.go fn v inputs ks).2.1 = false →
        (numeric_strategy2.go fn v inputs ks).2.2 = 0) := by
  intro ks
  induction ks with
  | nil => intro inputs; exact ⟨Nat.zero_le _, fun _ => rfl⟩
  | cons k rest ih =>
      intro inputs
      unfold numeric_strategy2.go
      cases hk : s2TrySelector inputs fn v k with
      | error e => simpa using ih inputs
      | ok res =>
          obtain ⟨ins', f', m'⟩ := res
          have hb := s2TrySelector_muts inputs fn v k _ hk
          cases f' with
          | true => simpa using hb.1
          | false => simpa using ih inputs

/-- The caught outcome of a locator-based clicking strategy: at most one
click, none when the strategy did not report the assignment handled. -/
theorem strategy_catch_muts
    (sel : List Bool)
    (st : Except Unit (List Bool × Bool × Nat))
    (hok : ∀ res, st = Except.ok res → res.2.2 ≤ 1 ∧ (res.2.1 = false → res.2.2 = 0)) :
    (caught sel st).2.2 ≤ 1 ∧
    ((caught sel st).2.1 = false → (caught sel st).2.2 = 0) := by
  cases st with
  | ok r => exact hok r rfl
  | error e => exact ⟨Nat.zero_le _, fun _ => rfl⟩

/-- Strategy 1 clicks at most once, and not at all when it reports the
assignment unhandled. -/
theorem discrete_strategy1_muts (ctrls : List DiscreteControl) (sel : List Bool)
    (v : String) :
    ∀ res, discrete_strategy1 ctrls sel v = Except.ok res →
      res.2.2 ≤ 1 ∧ (res.2.1 = false → res.2.2 = 0) := by
  intro res h
  unfold discrete_strategy1 at h
  split at h
  · injection h with h2; subst h2; exact ⟨Nat.zero_le _, fun _ => rfl⟩
  · split at h
    · split at h
      · injection h with h2; subst h2
        exact ⟨le_refl 1, by intro hc; cases hc⟩
      · cases h
    · cases h

/-- Strategy 2 clicks at most once, and not at all when it reports the
assignment unhandled. -/
theorem discrete_strategy2_muts (ctrls : List DiscreteControl) (sel : List Bool)
    (v : String) :
    ∀ res, discrete_strategy2 ctrls sel v = Except.ok res →
      res.2.2 ≤ 1 ∧ (res.2.1 = false → res.2.2 = 0) := by
  intro res h
  unfold discrete_strategy2 at h
  split at h
  · split at h
    · injection h with h2; subst h2; exact ⟨Nat.zero_le _, fun _ => rfl⟩
    · split at h
      · split at h
        · injection h with h2; subst h2
          exact ⟨le_refl 1, by intro hc; cases hc⟩
        · cases h
      · cases h
  · injection h with h2; subst h2; exact ⟨Nat.zero_le _, fun _ => rfl⟩

/-- Strategy 3 clicks at most once, and not at all when it reports the
assignment unhandled. -/
theorem discrete_strategy3_muts (ctrls : List DiscreteControl) (sel : List Bool)
    (fn v : String) :
    ∀ res, discrete_strategy3 ctrls sel fn v = Except.ok res →
      res.2.2 ≤ 1 ∧ (res.2.1 = false → res.2.2 = 0) := by
  intro res h
  unfold discrete_strategy3 at h
  split at h
  · injection h with h2; subst h2; exact ⟨Nat.zero_le _, fun _ => rfl⟩
  · split at h
    · injection h with h2; subst h2; exact ⟨Nat.zero_le _, fun _ => rfl⟩
    · split at h
      · split at h
        · injection h with h2; subst h2
          exact ⟨le_refl 1, by intro hc; cases hc⟩
        · cases h
      · cases h

/-- Strategy 4 clicks at most once, and not at all when it reports the
assignment unhandled. -/
theorem discrete_strategy4_muts (ctrls : List DiscreteControl) (sel : List Bool)
    (fn v : String) :
    (discrete_strategy4 ctrls sel fn v).2.2 ≤ 1 ∧
    ((discrete_strategy4 ctrls sel fn v).2.1 = false →
      (discrete_strategy4 ctrls sel fn v).2.2 = 0) := by
  unfold discrete_strategy4
  split
  · exact ⟨Nat.zero_le _, fun _ => rfl⟩
  · split
    · exact ⟨Nat.zero_le _, fun _ => rfl⟩
    · exact ⟨le_refl 1, by intro hc; cases hc⟩

/-- The whole discrete path clicks at most once. -/
theorem discrete_path_muts (ctrls : List DiscreteControl) (sel : List Bool)
    (fn v : String) : (discrete_path ctrls sel fn v).2.2 ≤ 1 := by
  unfold discrete_path
  have h1 := strategy_catch_muts sel (discrete_strategy1 ctrls sel v)
    (discrete_strategy1_muts ctrls sel v)
  set r1 := caught sel (discrete_strategy1 ctrls sel v) with hr1
  by_cases hc1 : r1.2.1
  · simpa [hc1] using h1.1
  · have hm1 : r1.2.2 = 0 := h1.2 (by simpa using hc1)
    simp only [hc1, if_false, Bool.false_eq_true]
    have h2 := strategy_catch_muts r1.1 (discrete_strategy2 ctrls r1.1 v)
      (discrete_strategy2_muts ctrls r1.1 v)
    set r2 := caught r1.1 (discrete_strategy2 ctrls r1.1 v) with hr2
    by_cases hc2 : r2.2.1
    · simpa [hc2, hm1] using h2.1
    · have hm2 : r2.2.2 = 0 := h2.2 (by simpa using hc2)
      simp only [hc2, if_false, Bool.false_eq_true]
      have h3 := strategy_catch_muts r2.1 (discrete_strategy3 ctrls r2.1 fn v)
        (discrete_strategy3_muts ctrls r2.1 fn v)
      set r3 := caught r2.1 (discrete_strategy3 ctrls r2.1 fn v) with hr3
      by_cases hc3 : r3.2.1
      · simpa [hc3, hm1, hm2] using h3.1
      · have hm3 : r3.2.2 = 0 := h3.2 (by simpa using hc3)
        simp only [hc3, if_false, Bool.false_eq_true]
        have h4 := discrete_strategy4_muts ctrls r3.1 fn v
        simpa [hm1, hm2, hm3] using h4.1

/-- One assignment performs at most one DOM mutation. -/
theorem apply_assignment_muts (p : Page) (fn v : String) :
    (apply_assignment p fn v).2 ≤ 1 := by
  rcases hs1 : numeric_strategy1 p.labels p.inputs fn v with ⟨i1, f1, a1⟩
  rcases hs2 : numeric_strategy2 i1 fn v with ⟨i2, f2, a2⟩
  rcases hd : discrete_path p.controls p.sel fn v with ⟨selN, cN, mC⟩
  have h1 := numeric_strategy1_muts p.labels p.inputs fn v
  rw [hs1] at h1
  have h2 : (numeric_strategy2 i1 fn v).2.2 ≤ 1 ∧
      ((numeric_strategy2 i1 fn v).2.1 = false →
        (numeric_strategy2 i1 fn v).2.2 = 0) :=
    numeric_strategy2_muts fn v [0, 1, 2, 3, 4, 5, 6] i1
  rw [hs2] at h2
  have hd' := discrete_path_muts p.controls p.sel fn v
  rw [hd] at hd'
  simp only at h1 h2 hd'
  unfold apply_assignment
  cases hn : is_numeric_value v with
  | false =>
      simp only [hn, hs1, hs2, hd, Bool.false_eq_true, if_false, Bool.not_false,
        if_true]
      omega
  | true =>
      cases f1 with
      | true =>
          simp only [hn, hs1, hs2, hd, if_true, Bool.not_true, Bool.false_eq_true,
            if_false]
          omega
      | false =>
          have ha1 : a1 = 0 := h1.2 rfl
          cases f2 with
          | true =>
              simp only [hn, hs1, hs2, hd, if_true, Bool.false_eq_true, if_false,
                Bool.not_true]
              omega
          | false =>
              have ha2 : a2 = 0 := h2.2 rfl
              simp only [hn, hs1, hs2, hd, if_true, Bool.false_eq_true, if_false,
                Bool.not_false]
              omega

/-- C8: within one execution, each assignment of the input map is
processed exactly once, in order, and triggers at most one successful DOM
mutation — one input fill or one click — because every strategy returns
right after its first mutation and later strategies are gated on the
earlier ones not having succeeded; over the whole list the mutation count
is bounded by the number of assignments. -/
theorem assignment_applied_at_most_once (p : Page) (fn v : String)
    (assigns : List (String × String)) :
    (apply_assignment p fn v).2 ≤ 1 ∧
    (run_assignments p assigns).2.2 ≤ assigns.length ∧
    (run_assignments p assigns).2.1 = assigns.map Prod.fst := by
  refine ⟨apply_assignment_muts p fn v, ?_, run_assignments_attempted assigns p⟩
  induction assigns generalizing p with
  | nil => exact Nat.le_refl 0
  | cons a tl ih =>
      obtain ⟨fn', v'⟩ := a
      have h1 := apply_assignment_muts p fn' v'
      have h2 := ih (apply_assignment p fn' v').1
      rcases ha : apply_assignment p fn' v' with ⟨p1, m⟩
      rw [ha] at h1 h2
      rcases hb : run_assignments p1 tl with ⟨p2, names, ms⟩
      rw [hb] at h2
      simp only [run_assignments, ha, hb, List.length_cons]
      simp only at h1 h2
      omega

/-! ## C1: idempotence of discrete application (corrected)

Strategies 2, 3 and 4 check the teal selected background before clicking;
strategy 1 (a real button element) clicks unconditionally.  The chain
lemmas below show the teal-guarded part of the path is idempotent, and
the counterexample shows the button path is not. -/

/-- Toggling past the end of the selection list is a no-op (List.set out
of range). -/
theorem clickAt_oob (sel : List Bool) (i : Nat) :
    sel.length ≤ i → clickAt sel i = sel := by
  induction sel generalizing i with
  | nil => intro h; rfl
  | cons b t ih =>
      intro h
      cases i with
      | zero => cases h
      | succ n => exact congrArg (b :: ·) (ih n (Nat.le_of_succ_le_succ h))

/-- Toggling an in-range control flips its selected state. -/
theorem isSel_clickAt_self (sel : List Bool) (i : Nat) :
    i < sel.length → isSel (clickAt sel i) i = !(isSel sel i) := by
  induction sel generalizing i with
  | nil => intro h; cases h
  | cons b t ih =>
      intro h
      cases i with
      | zero => rfl
      | succ n => exact ih n (Nat.lt_of_succ_lt_succ h)

/-- A step that does not handle the assignment leaves the selection
unchanged. -/
theorem stepOf_pass (cand : Option Nat) (ck : Nat → Bool) (sel : List Bool) :
    (stepOf cand ck sel).2 = false → (stepOf cand ck sel).1 = sel := by
  intro h
  cases cand with
  | none => rfl
  | some i =>
      cases hsel : isSel sel i with
      | true => simp [stepOf, hsel] at h
      | false =>
          cases hck : ck i with
          | true => simp [stepOf, hsel, hck] at h
          | false => simp [stepOf, hsel, hck]

/-- Idempotence of a chain of teal-guarded steps: running the chain again
on its own output changes nothing, because the candidate of each step
depends only on the immutable structure, a click turns its target
selected, and every click is preceded by the selected check. -/
theorem chainStep_idem (cands : List (Option Nat × (Nat → Bool))) :
    ∀ sel : List Bool,
      (chainStep cands (chainStep cands sel).1).1 = (chainStep cands sel).1 := by
  induction cands with
  | nil => intro sel; rfl
  | cons c rest ih =>
      intro sel
      obtain ⟨cand, ck⟩ := c
      cases cand with
      | none =>
          show (chainStep ((none, ck) :: rest) (chainStep rest sel).1).1 =
            (chainStep rest sel).1
          show (chainStep rest (chainStep rest sel).1).1 = (chainStep rest sel).1
          exact ih sel
      | some i =>
          cases hsel : isSel sel i with
          | true =>
              simp only [chainStep, stepOf, hsel, if_true]
          | false =>
              cases hck : ck i with
              | true =>
                  by_cases hlen : i < sel.length
                  · have h2 : isSel (clickAt sel i) i = true := by
                      rw [isSel_clickAt_self sel i hlen, hsel]; rfl
                    simp only [chainStep, stepOf, hsel, hck, h2, if_true,
                      Bool.false_eq_true, if_false]
                  · have hoob : clickAt sel i = sel :=
                      clickAt_oob sel i (Nat.le_of_not_lt hlen)
                    simp only [chainStep, stepOf, hsel, hck, hoob, if_true,
                      Bool.false_eq_true, if_false]
              | false =>
                  cases hq : isSel (chainStep rest sel).1 i with
                  | true =>
                      simp only [chainStep, stepOf, hsel, hck, hq, if_true,
                        Bool.false_eq_true, if_false]
                  | false =>
                      simp only [chainStep, stepOf, hsel, hck, hq,
                        Bool.false_eq_true, if_false]
                      exact ih sel

/-- A caught strategy that did not raise is its own result. -/
theorem caught_ok (sel : List Bool) (r : List Bool × Bool × Nat) :
    caught sel (Except.ok r) = r := rfl

/-- With no button containing the value text, strategy 1 passes without
clicking. -/
theorem discrete_strategy1_no_button (ctrls : List DiscreteControl)
    (sel : List Bool) (v : String)
    (hb : ctrlIdx (btnHasText v) ctrls = []) :
    discrete_strategy1 ctrls sel v = Except.ok (sel, false, 0) := by
  unfold discrete_strategy1
  rw [hb]

/-- The caught strategy 2 is the teal-guarded step over its candidate. -/
theorem caught_strategy2_step (ctrls : List DiscreteControl) (sel : List Bool)
    (v : String) :
    (caught sel (discrete_strategy2 ctrls sel v)).1 =
      (stepOf (cand2 ctrls v) (clickOk ctrls) sel).1 ∧
    (caught sel (discrete_strategy2 ctrls sel v)).2.1 =
      (stepOf (cand2 ctrls v) (clickOk ctrls) sel).2 := by
  cases hidx : ctrlIdx (divTextIs v) ctrls with
  | nil => simp [discrete_strategy2, cand2, stepOf, caught, hidx]
  | cons i tl =>
      cases tl with
      | nil =>
          cases hsel : isSel sel i with
          | true => simp [discrete_strategy2, cand2, stepOf, caught, hidx, hsel]
          | false =>
              cases hg : ctrls[i]? with
              | some c =>
                  cases hac : c.actionable with
                  | true =>
                      simp [discrete_strategy2, cand2, stepOf, caught, clickOk,
                        hidx, hsel, hg, hac]
                  | false =>
                      simp [discrete_strategy2, cand2, stepOf, caught, clickOk,
                        hidx, hsel, hg, hac]
              | none =>
                  simp [discrete_strategy2, cand2, stepOf, caught, clickOk,
                    hidx, hsel, hg]
      | cons j tl2 => simp [discrete_strategy2, cand2, stepOf, caught, hidx]

/-- The caught strategy 3 is the teal-guarded step over its candidate. -/
theorem caught_strategy3_step (ctrls : List DiscreteControl) (sel : List Bool)
    (fn v : String) :
    (caught sel (discrete_strategy3 ctrls sel fn v)).1 =
      (stepOf (cand3 ctrls fn v) (clickOk ctrls) sel).1 ∧
    (caught sel (discrete_strategy3 ctrls sel fn v)).2.1 =
      (stepOf (cand3 ctrls fn v) (clickOk ctrls) sel).2 := by
  cases hfind : (s3Handles ctrls v).find? (fun i =>
      match ctrls[i]? with
      | some c => strContains c.ancestorText fn
      | none => false) with
  | none => simp [discrete_strategy3, cand3, stepOf, caught, hfind]
  | some i =>
      cases hsel : isSel sel i with
      | true => simp [discrete_strategy3, cand3, stepOf, caught, hfind, hsel]
      | false =>
          cases hg : ctrls[i]? with
          | some c =>
              cases hac : c.actionable with
              | true =>
                  simp [discrete_strategy3, cand3, stepOf, caught, clickOk,
                    hfind, hsel, hg, hac]
              | false =>
                  simp [discrete_strategy3, cand3, stepOf, caught, clickOk,
                    hfind, hsel, hg, hac]
          | none =>
              simp [discrete_strategy3, cand3, stepOf, caught, clickOk,
                hfind, hsel, hg]

/-- Strategy 4 is the teal-guarded step over its candidate, with a click
that always lands. -/
theorem discrete_strategy4_step (ctrls : List DiscreteControl) (sel : List Bool)
    (fn v : String) :
    (discrete_strategy4 ctrls sel fn v).1 =
      (stepOf (cand4 ctrls fn v) (fun _ => true) sel).1 ∧
    (discrete_strategy4 ctrls sel fn v).2.1 =
      (stepOf (cand4 ctrls fn v) (fun _ => true) sel).2 := by
  cases hfind : (ctrlIdx s4Shape ctrls).find? (fun i =>
      match ctrls[i]? with
      | some c =>
          (c.text == v || strContains c.text v) && strContains c.ancestorText fn
      | none => false) with
  | none => simp [discrete_strategy4, cand4, stepOf, hfind]
  | some i =>
      cases hsel : isSel sel i with
      | true => simp [discrete_strategy4, cand4, stepOf, hfind, hsel]
      | false => simp [discrete_strategy4, cand4, stepOf, hfind, hsel]

/-- With no button containing the value text, the discrete path is
exactly the teal-guarded chain of strategies 2, 3 and 4. -/
theorem discrete_path_as_chain (ctrls : List DiscreteControl) (sel : List Bool)
    (fn v : String) (hb : ctrlIdx (btnHasText v) ctrls = []) :
    (discrete_path ctrls sel fn v).1 =
      (chainStep (strategyChain ctrls fn v) sel).1 ∧
    (discrete_path ctrls sel fn v).2.1 =
      (chainStep (strategyChain ctrls fn v) sel).2 := by
  unfold discrete_path
  rw [discrete_strategy1_no_button ctrls sel v hb, caught_ok]
  simp only [Bool.false_eq_true, if_false]
  simp only [strategyChain, chainStep]
  have h2 := caught_strategy2_step ctrls sel v
  cases hs2 : (stepOf (cand2 ctrls v) (clickOk ctrls) sel).2 with
  | true =>
      rw [hs2] at h2
      simp only [h2.1, h2.2, hs2, if_true]
      exact ⟨by trivial, by trivial⟩
  | false =>
      have hsel2 : (stepOf (cand2 ctrls v) (clickOk ctrls) sel).1 = sel :=
        stepOf_pass _ _ _ hs2
      rw [hs2, hsel2] at h2
      simp only [h2.1, h2.2, hs2, hsel2, Bool.false_eq_true, if_false]
      have h3 := caught_strategy3_step ctrls sel fn v
      cases hs3 : (stepOf (cand3 ctrls fn v) (clickOk ctrls) sel).2 with
      | true =>
          rw [hs3] at h3
          simp only [h3.1, h3.2, hs3, if_true]
          exact ⟨by trivial, by trivial⟩
      | false =>
          have hsel3 : (stepOf (cand3 ctrls fn v) (clickOk ctrls) sel).1 = sel :=
            stepOf_pass _ _ _ hs3
          rw [hs3, hsel3] at h3
          simp only [h3.1, h3.2, hs3, hsel3, Bool.false_eq_true, if_false]
          have h4 := discrete_strategy4_step ctrls sel fn v
          cases hs4 : (stepOf (cand4 ctrls fn v) (fun _ => true) sel).2 with
          | true =>
              rw [hs4] at h4
              simp only [h4.1, h4.2, hs4, if_true]
              exact ⟨by trivial, by trivial⟩
          | false =>
              have hsel4 : (stepOf (cand4 ctrls fn v) (fun _ => true) sel).1 = sel :=
                stepOf_pass _ _ _ hs4
              rw [hs4] at h4
              simp only [h4.1, h4.2, hs4, Bool.false_eq_true, if_false]
              exact ⟨by trivial, by trivial⟩

/-- A non-numeric assignment goes straight to the discrete path and only
rewrites the selection state. -/
theorem apply_assignment_discrete (p : Page) (fn v : String)
    (hnum : is_numeric_value v = false) :
    (apply_assignment p fn v).1 =
      { p with sel := (discrete_path p.controls p.sel fn v).1 } := by
  unfold apply_assignment
  simp only [hnum, Bool.false_eq_true, if_false, Bool.not_false, if_true]

/-- C1 counterexample: when the control matching the discrete assignment
is a real button element, strategy 1 (lines 921-931) clicks it with no
selected-state check, so the second application of the same assignment
toggles the control back off: applying [a] leaves the control selected,
applying [a, a] leaves it unselected — the two final selection states
differ, refuting idempotence for every clicking strategy. -/
theorem button_strategy_breaks_idempotence :
    (run_assignments cxButtonPage [("Smoker", "Yes")]).1.sel = [true] ∧
    (run_assignments cxButtonPage
      [("Smoker", "Yes"), ("Smoker", "Yes")]).1.sel = [false] := by
  exact ⟨rfl, rfl⟩

/-- C1 amended: the div-based clicking strategies (2, 3 and 4) all check
the teal selected background before clicking, so for every discrete
(non-numeric) assignment on a page where no button element contains the
value text — excluding only the button strategy, which clicks without the
check — applying the ordered list [a, a] leaves the page in exactly the
state reached by applying [a]. -/
theorem discrete_apply_idempotent (p : Page) (fn v : String)
    (hnum : is_numeric_value v = false)
    (hb : ctrlIdx (btnHasText v) p.controls = []) :
    (run_assignments p [(fn, v), (fn, v)]).1 =
      (run_assignments p [(fn, v)]).1 := by
  show (apply_assignment (apply_assignment p fn v).1 fn v).1 =
    (apply_assignment p fn v).1
  have e1 := apply_assignment_discrete p fn v hnum
  have hc1 : (apply_assignment p fn v).1.controls = p.controls := by rw [e1]
  have hb1 : ctrlIdx (btnHasText v) (apply_assignment p fn v).1.controls = [] := by
    rw [hc1]; exact hb
  have e2 := apply_assignment_discrete (apply_assignment p fn v).1 fn v hnum
  have hchain1 := discrete_path_as_chain p.controls p.sel fn v hb
  have hchain2 := discrete_path_as_chain (apply_assignment p fn v).1.controls
    (apply_assignment p fn v).1.sel fn v hb1
  have hp1sel : (apply_assignment p fn v).1.sel =
      (chainStep (strategyChain p.controls fn v) p.sel).1 := by
    rw [e1]
    exact hchain1.1
  have hfix : (discrete_path (apply_assignment p fn v).1.controls
      (apply_assignment p fn v).1.sel fn v).1 = (apply_assignment p fn v).1.sel := by
    calc (discrete_path (apply_assignment p fn v).1.controls
            (apply_assignment p fn v).1.sel fn v).1
        = (chainStep (strategyChain (apply_assignment p fn v).1.controls fn v)
            (apply_assignment p fn v).1.sel).1 := hchain2.1
      _ = (chainStep (strategyChain p.controls fn v)
            (apply_assignment p fn v).1.sel).1 := by rw [hc1]
      _ = (chainStep (strategyChain p.controls fn v)
            (chainStep (strategyChain p.controls fn v) p.sel).1).1 := by
          rw [hp1sel]
      _ = (chainStep (strategyChain p.controls fn v) p.sel).1 :=
          chainStep_idem _ p.sel
      _ = (apply_assignment p fn v).1.sel := hp1sel.symm
  rw [e2, hfix]

/-- Witness for the amended C1: a div option control with the teal check,
applied twice. -/
theorem discrete_apply_idempotent_witness :
    (run_assignments wDivPage [("History", "Moderately suspicious"),
        ("History", "Moderately suspicious")]).1 =
      (run_assignments wDivPage [("History", "Moderately suspicious")]).1 :=
  discrete_apply_idempotent wDivPage "History" "Moderately suspicious"
    (by decide) (by decide)

/-! ## C6: non-destructive skip (corrected) -/

/-- With no element text matching the field name, numeric strategy 1
leaves the inputs untouched. -/
theorem numeric_strategy1_no_labels (labels : List LabelEl)
    (inputs : List InputEl) (fn v : String)
    (h : labels.filter (labelCandidate fn) = []) :
    numeric_strategy1 labels inputs fn v = (inputs, false, 0) := by
  unfold numeric_strategy1
  rw [h]
  rfl

/-- A selector that matches no input exactly once, and none of whose
matched inputs has a context mentioning the field name, fills nothing. -/
theorem s2TrySelector_skip (inputs : List InputEl) (fn v : String) (k : Nat)
    (h1 : (selectorIdx inputs fn k).length ≠ 1)
    (h2 : ∀ i ∈ selectorIdx inputs fn k, ∀ inp, inputs[i]? = some inp →
      ctxMatches fn inp = false) :
    s2TrySelector inputs fn v k = Except.ok (inputs, false, 0) := by
  unfold s2TrySelector
  cases hidx : selectorIdx inputs fn k with
  | nil => rfl
  | cons i tl =>
      cases tl with
      | nil =>
          rw [hidx] at h1
          simp at h1
      | cons j tl2 =>
          have hfind : (i :: j :: tl2).find? (fun i =>
              match inputs[i]? with
              | some inp => ctxMatches fn inp
              | none => false) = none := by
            rw [List.find?_eq_none]
            intro a ha
            cases hga : inputs[a]? with
            | some inp =>
                have hc := h2 a (by rw [hidx]; exact ha) inp hga
                simp [hga, hc]
            | none => simp [hga]
          simp only [hfind]

/-- When every selector attempt fills nothing, numeric strategy 2 leaves
the inputs untouched. -/
theorem numeric_strategy2_skip (inputs : List InputEl) (fn v : String)
    (hall : ∀ k, s2TrySelector inputs fn v k = Except.ok (inputs, false, 0)) :
    numeric_strategy2 inputs fn v = (inputs, false, 0) := by
  have hgo : ∀ ks, numeric_strategy2.go fn v inputs ks = (inputs, false, 0) := by
    intro ks
    induction ks with
    | nil => rfl
    | cons k rest ih =>
        unfold numeric_strategy2.go
        rw [hall k]
        exact ih
  exact hgo [0, 1, 2, 3, 4, 5, 6]

/-- C6 counterexample: a page holding one filled numeric input labelled
Weight, and a numeric assignment for Heart Rate, a field name matching no
label on the page.  Strategy 1 finds no label, but the generic selector
input[type=number] of strategy 2 matches exactly one input and fills it
unconditionally: the unrelated Weight input, already holding the
differing non-empty value 70, is overwritten with 80 — refuting both the
universal skip and the no-clobbering clause. -/
theorem unique_selector_overwrites_input :
    cxNumPage.labels.filter (labelCandidate "Heart Rate") = [] ∧
    cxNumPage.inputs.map InputEl.value = ["70"] ∧
    (apply_assignment cxNumPage "Heart Rate" "80").1.inputs.map InputEl.value
      = ["80"] :=
  ⟨rfl, rfl, rfl⟩

/-- C6 amended: a numeric assignment whose field name matches no element
text (strategy 1 finds no label), for which no selector of strategy 2 —
including the name-based and the generic numeric ones — matches exactly
one input, and whose field name appears in no matched input container or
preceding sibling, leaves every input value unchanged; the discrete
clicking path never writes into inputs.  (The explicit label-for linkage
and the unique-selector fill are the two paths that can overwrite an
input that already holds a different, non-empty value.) -/
theorem numeric_no_match_leaves_inputs (p : Page) (fn v : String)
    (hlab : p.labels.filter (labelCandidate fn) = [])
    (hlen : ∀ k, (selectorIdx p.inputs fn k).length ≠ 1)
    (hctx : ∀ k, ∀ i ∈ selectorIdx p.inputs fn k, ∀ inp,
      p.inputs[i]? = some inp → ctxMatches fn inp = false) :
    (apply_assignment p fn v).1.inputs = p.inputs := by
  unfold apply_assignment
  cases hn : is_numeric_value v with
  | false => simp only [hn, Bool.false_eq_true, if_false]
  | true =>
      have h1 := numeric_strategy1_no_labels p.labels p.inputs fn v hlab
      have h2 := numeric_strategy2_skip p.inputs fn v
        (fun k => s2TrySelector_skip p.inputs fn v k (hlen k) (hctx k))
      simp only [hn, if_true, h1, h2, Bool.false_eq_true, if_false,
        Bool.not_false]

/-- Witness for the amended C6 on a page with no inputs at all. -/
theorem numeric_no_match_witness :
    (apply_assignment wEmptyInputsPage "Heart Rate" "80").1.inputs =
      wEmptyInputsPage.inputs :=
  numeric_no_match_leaves_inputs wEmptyInputsPage "Heart Rate" "80"
    (by decide)
    (by intro k; simp [selectorIdx, selectorIdx.go, wEmptyInputsPage])
    (by intro k i hi; simp [selectorIdx, selectorIdx.go, wEmptyInputsPage] at hi)

end MDCalc
